import Mathlib

/-!
# Verification of the hagAI Asana tool layer

Shallow embedding, in Lean 4, of the rate-limited Asana API client
(`src/api/asana-client.ts`) and of the query tools
(`src/tools/daily-status.ts`, `additional-queries.ts`, `weekly-planning.ts`,
`project-status.ts`, `due-date-tracking.ts`).

Embedding conventions:
* JavaScript `Date.now()` timestamps are natural numbers (milliseconds).
* Optional string fields (`string | undefined`) become `Option String`;
  JavaScript truthiness of such a field (`t.due_on && ...`) is embedded as
  `optTruthy` (the field is present *and* non-empty), matching `undefined`,
  `null` and `""` all being falsy.
* A string default `x || d` on a field that is an object (e.g.
  `task.assignee?.name`) is embedded by matching on the option.
* The vendor SDK responses are a record of `Except String _` values: `.error e`
  embeds a rejected promise carrying message `e`, `.ok v` a resolved one.
  Each tool's `try { ... } catch` is embedded by matching on those results.
* The JSON-shaped envelopes the tools return are embedded as `JVal` values,
  with object fields listed in source order.
-/

/-- JavaScript truthiness for an optional string field: `undefined`, `null`
and the empty string are falsy. -/
def optTruthy : Option String → Bool
  | some s => !s.isEmpty
  | none => false

/-! ## Data model (`src/types/asana.ts`) -/

structure AsanaUser where
  gid : String
  name : String
  email : Option String
deriving Repr, DecidableEq

structure AsanaProject where
  gid : String
  name : String
deriving Repr, DecidableEq

/-- The `{gid, name}` reference stored in `AsanaSection.project` and in
membership entries. -/
structure ProjectRef where
  gid : String
  name : String
deriving Repr, DecidableEq

structure AsanaSection where
  gid : String
  name : String
  project : Option ProjectRef
deriving Repr, DecidableEq

/-- `AsanaMembership`; the TS field `section` is called `sect` here because
`section` is a Lean keyword. -/
structure AsanaMembership where
  project : ProjectRef
  sect : Option ProjectRef
deriving Repr, DecidableEq

structure AsanaTask where
  gid : String
  name : String
  notes : Option String
  completed : Bool
  completed_at : Option String
  created_at : String
  modified_at : String
  due_on : Option String
  due_at : Option String
  assignee : Option AsanaUser
  projects : List AsanaProject
  memberships : List AsanaMembership
deriving Repr, DecidableEq

/-- `AsanaStory` (change-history event). -/
structure AsanaStory where
  gid : String
  created_at : String
  created_by : AsanaUser
  resource_subtype : String
  text : Option String
  old_due_on : Option String
  new_due_on : Option String
  old_due_at : Option String
  new_due_at : Option String
deriving Repr, DecidableEq

/-! ## JSON values for the tool envelopes -/

/-- A JSON-ish value; `jundefined` embeds a field whose value is `undefined`. -/
inductive JVal where
  | str (s : String)
  | num (n : Int)
  | jbool (b : Bool)
  | jundefined
  | arr (xs : List JVal)
  | obj (fields : List (String × JVal))

/-- Look a field up in a JSON object (first occurrence). -/
def jField : JVal → String → Option JVal
  | .obj fs, k => (fs.find? (fun p => p.1 == k)).map (fun p => p.2)
  | _, _ => none

/-- The value has an `error` field holding a string. -/
def jHasError (v : JVal) : Bool :=
  match jField v "error" with
  | some (.str _) => true
  | _ => false

/-- Every numeric field of the (top-level) object is `0` and every array
field is empty. -/
def jZeroed (v : JVal) : Bool :=
  match v with
  | .obj fs => fs.all (fun p =>
      match p.2 with
      | .num n => n == 0
      | .arr xs => xs.isEmpty
      | _ => true)
  | _ => false

/-- The error envelope contract: an `error` message string, all counts
zero-valued and all collections empty. -/
def isErrorEnvelope (v : JVal) : Bool := jHasError v && jZeroed v

/-! ## Rate limiter (`AsanaClient.checkRateLimit`, asana-client.ts:34-53) -/

/-- The process-local rate window: `requestCount` and `resetTime` fields of
`AsanaClient`. -/
structure RateWindow where
  requestCount : Nat
  resetTime : Nat
deriving Repr, DecidableEq

/-- Result of one `checkRateLimit` invocation: the mutated window and the
number of milliseconds the caller was suspended (`0` when no wait happened). -/
structure RateOutcome where
  window : RateWindow
  waited : Nat
deriving Repr, DecidableEq

/-- Shallow embedding of `checkRateLimit`.  `ceiling` is the request ceiling
(the source hardcodes `100`), `now` is `Date.now()` on entry, and `delay` is
the extra scheduler latency of `setTimeout` beyond the requested wait, so
that `Date.now()` after the sleep is `now + waitTime + delay`.

```
const now = Date.now();
if (now > this.resetTime) { this.requestCount = 0; this.resetTime = now + 60000; }
if (this.requestCount >= 100) {
  const waitTime = this.resetTime - now;
  if (waitTime > 0) {
    await new Promise(resolve => setTimeout(resolve, waitTime));
    this.requestCount = 0;
    this.resetTime = Date.now() + 60000;
  }
}
this.requestCount++;
```
-/
def checkRateLimit (ceiling : Nat) (st : RateWindow) (now : Nat) (delay : Nat) : RateOutcome :=
  let st1 := if st.resetTime < now then { requestCount := 0, resetTime := now + 60000 } else st
  if ceiling ≤ st1.requestCount then
    let waitTime : Int := (st1.resetTime : Int) - (now : Int)
    if 0 < waitTime then
      let wake := now + waitTime.toNat + delay
      { window := { requestCount := 0 + 1, resetTime := wake + 60000 },
        waited := waitTime.toNat }
    else
      { window := { st1 with requestCount := st1.requestCount + 1 }, waited := 0 }
  else
    { window := { st1 with requestCount := st1.requestCount + 1 }, waited := 0 }

/-- The ceiling the source uses (`this.requestCount >= 100`). -/
def asanaCeiling : Nat := 100

/-- C1: with the counter at the ceiling and a call arriving strictly before
the reset timestamp, the caller is suspended until the reset timestamp, the
counter afterwards equals 1 (not 0), and a fresh 60-second window is
scheduled from the wake-up time. -/
theorem checkRateLimit_blocked_call_resets_to_one
    (ceiling : Nat) (st : RateWindow) (now delay : Nat)
    (hcount : st.requestCount = ceiling) (hnow : now < st.resetTime) :
    (checkRateLimit ceiling st now delay).waited = st.resetTime - now ∧
    (checkRateLimit ceiling st now delay).window.requestCount = 1 ∧
    (checkRateLimit ceiling st now delay).window.resetTime
      = (st.resetTime + delay) + 60000 := by
  have h1 : ¬ st.resetTime < now := by omega
  have h3 : ceiling ≤ st.requestCount := by omega
  have h2 : (0 : Int) < (st.resetTime : Int) - (now : Int) := by omega
  simp only [checkRateLimit, if_neg h1, if_pos h3, if_pos h2]
  refine ⟨by omega, by trivial, by omega⟩

theorem checkRateLimit_blocked_call_resets_to_one_witness :
    (2 : Nat) = 2 ∧ (30000 : Nat) < 60000 ∧
    (checkRateLimit 2 ⟨2, 60000⟩ 30000 0).waited = 30000 ∧
    (checkRateLimit 2 ⟨2, 60000⟩ 30000 0).window.requestCount = 1 ∧
    (checkRateLimit 2 ⟨2, 60000⟩ 30000 0).window.resetTime = 120000 := by
  have h := checkRateLimit_blocked_call_resets_to_one 2 ⟨2, 60000⟩ 30000 0 rfl (by decide)
  exact ⟨rfl, by decide, h.1, h.2.1, h.2.2⟩

/-- C2 counterexample: a call arriving exactly at the reset timestamp with
the counter at the ceiling is *not* suspended (the reset check requires
`now > resetTime` and the wait check requires `waitTime > 0`), and the
counter is incremented to `ceiling + 1 = 101`, exceeding the ceiling at the
moment the outbound call is issued. -/
theorem checkRateLimit_ceiling_boundary_cex :
    (checkRateLimit 100 ⟨100, 5000⟩ 5000 0).waited = 0 ∧
    (checkRateLimit 100 ⟨100, 5000⟩ 5000 0).window.requestCount = 101 ∧
    ¬ (checkRateLimit 100 ⟨100, 5000⟩ 5000 0).window.requestCount ≤ 100 := by
  refine ⟨rfl, rfl, by decide⟩

/-- C2 amended: provided the ceiling is positive, a single `checkRateLimit`
step keeps the counter at or below the ceiling whenever the call does not
arrive exactly at the window's reset timestamp; incrementing past the
ceiling strictly before the reset timestamp always suspends first. -/
theorem checkRateLimit_count_le_ceiling_off_boundary
    (ceiling : Nat) (st : RateWindow) (now delay : Nat)
    (hpos : 1 ≤ ceiling) (hinv : st.requestCount ≤ ceiling)
    (hne : now ≠ st.resetTime) :
    (checkRateLimit ceiling st now delay).window.requestCount ≤ ceiling := by
  by_cases h1 : st.resetTime < now
  · have h2 : ¬ ceiling ≤ (0 : Nat) := by omega
    simp only [checkRateLimit, if_pos h1, if_neg h2]
    omega
  · by_cases h3 : ceiling ≤ st.requestCount
    · have h4 : (0 : Int) < (st.resetTime : Int) - (now : Int) := by omega
      simp only [checkRateLimit, if_neg h1, if_pos h3, if_pos h4]
      omega
    · simp only [checkRateLimit, if_neg h1, if_neg h3]
      omega

theorem checkRateLimit_count_le_ceiling_off_boundary_witness :
    1 ≤ 100 ∧ 100 ≤ 100 ∧ (5000 : Nat) ≠ 60000 ∧
    (checkRateLimit 100 ⟨100, 60000⟩ 5000 0).window.requestCount ≤ 100 := by
  exact ⟨by decide, by decide, by decide,
    checkRateLimit_count_le_ceiling_off_boundary 100 ⟨100, 60000⟩ 5000 0
      (by decide) (by decide) (by decide)⟩

/-- `String.prototype.toLowerCase()`, embedded character-wise (same
mapping as `String.toLower`, defined structurally so that it computes by
kernel reduction). -/
def jsToLower (s : String) : String := String.mk (s.data.map Char.toLower)

/-! ## API client (`src/api/asana-client.ts`)

Each SDK-backed method is modelled by its response, an `Except String _`
value (`.error e` = the method throws its `FetchError` with message `e`).
`getTasks` responses may depend on the filter parameters.  The rate limiter
interacts with the clock and not with response values, so it is threaded
separately (see `checkRateLimit`). -/

/-- Filter parameters of `AsanaClient.getTasks`; the TS field `section` is
called `sect` here because `section` is a Lean keyword. -/
structure GetTasksParams where
  project : Option String := none
  sect : Option String := none
  assignee : Option String := none
  completed_since : Option String := none
  modified_since : Option String := none
deriving Repr, DecidableEq

/-- The response behaviour of an `AsanaClient` instance. -/
structure AsanaClientM where
  getTasksR : GetTasksParams → Except String (List AsanaTask)
  getTaskR : String → Except String AsanaTask
  getTaskStoriesR : String → Except String (List AsanaStory)
  getProjectSectionsR : String → Except String (List AsanaSection)
  getSectionTasksR : String → Except String (List AsanaTask)
  getWorkspaceUsersR : Except String (List AsanaUser)
  getMeR : Except String AsanaUser
  getWorkspaceProjectsR : Except String (List AsanaProject)

/-- `AsanaClient.searchUsers` (asana-client.ts:276-287): fetch all workspace
users, filter locally by case-insensitive substring on name or email. -/
def AsanaClientM.searchUsersC (c : AsanaClientM) (query : String) :
    Except String (List AsanaUser) :=
  match c.getWorkspaceUsersR with
  | .error e => .error e
  | .ok allUsers =>
    let lowerQuery := jsToLower query
    .ok (allUsers.filter fun user =>
      (jsToLower user.name).containsSubstr lowerQuery.toSubstring ||
      (match user.email with
       | some em => (jsToLower em).containsSubstr lowerQuery.toSubstring
       | none => false))

/-- The case-insensitive first-match lookup inside
`AsanaClient.findProjectByName` (asana-client.ts:316-319):
`projects.find(p => p.name.toLowerCase() === projectName.toLowerCase())`,
`null` when there is no match. -/
def findProjectByNameL (projects : List AsanaProject) (projectName : String) :
    Option AsanaProject :=
  projects.find? (fun p => jsToLower p.name == jsToLower projectName)

/-- `AsanaClient.findProjectByName` (asana-client.ts:314-320). -/
def AsanaClientM.findProjectByName (c : AsanaClientM) (projectName : String) :
    Except String (Option AsanaProject) :=
  match c.getWorkspaceProjectsR with
  | .error e => .error e
  | .ok projects => .ok (findProjectByNameL projects projectName)

/-! ## Shared rendering helpers for the tool envelopes -/

/-- `task.assignee?.name || 'Unassigned'`. -/
def assigneeName (t : AsanaTask) : String :=
  match t.assignee with
  | some u => u.name
  | none => "Unassigned"

/-- `task.memberships?.[0]?.project?.name || 'No project'`. -/
def membershipProject (t : AsanaTask) : String :=
  match t.memberships.head? with
  | some m => m.project.name
  | none => "No project"

/-- `task.memberships?.[0]?.section?.name || 'No section'`. -/
def membershipSection (t : AsanaTask) : String :=
  match t.memberships.head? with
  | some m =>
    match m.sect with
    | some s => s.name
    | none => "No section"
  | none => "No section"

/-- `user.email || 'No email'`. -/
def emailOr (u : AsanaUser) : String :=
  match u.email with
  | some em => em
  | none => "No email"

/-- An optional string field rendered as-is (`undefined` stays undefined). -/
def jOptStr : Option String → JVal
  | some s => .str s
  | none => .jundefined

/-- `x || d` on an optional string: the default replaces `undefined`, `null`
and (vacuously for this data) the empty string. -/
def strOr (o : Option String) (d : String) : String :=
  match o with
  | some s => if s.isEmpty then d else s
  | none => d

/-! ## Daily status tools (`src/tools/daily-status.ts`, part_001)

Clock inputs are passed explicitly: `todayStart` is
`startOfDay(new Date()).toISOString()` and `todayStr` is
`format(today, 'yyyy-MM-dd')`. -/

/-- The local re-check filter of `get_tasks_completed_today` (lines 34-36):
`task.completed && task.completed_at && task.completed_at >= todayStart`. -/
def completedTodayPred (todayStart : String) (task : AsanaTask) : Bool :=
  task.completed &&
    (match task.completed_at with
     | some c => !c.isEmpty && decide (todayStart ≤ c)
     | none => false)

/-- The list the tool returns, before rendering. -/
def completedTodayList (todayStart : String) (tasks : List AsanaTask) :
    List AsanaTask :=
  tasks.filter (completedTodayPred todayStart)

/-- `get_tasks_completed_today` (daily-status.ts:14-69). -/
def getTasksCompletedToday (c : AsanaClientM) (assignee : Option String)
    (todayStart todayStr : String) : JVal :=
  match c.getTasksR { completed_since := some todayStart, assignee := assignee } with
  | .error e =>
    .obj [("error", .str s!"Failed to fetch completed tasks: {e}"),
          ("count", .num 0), ("tasks", .arr [])]
  | .ok tasks =>
    let completedToday := completedTodayList todayStart tasks
    if completedToday.isEmpty then
      .obj [("message", .str "No tasks were completed today."),
            ("count", .num 0), ("tasks", .arr [])]
    else
      .obj [("message", .str s!"{completedToday.length} task(s) completed today."),
            ("count", .num completedToday.length),
            ("tasks", .arr (completedToday.map (fun task =>
              .obj [("name", .str task.name), ("gid", .str task.gid),
                    ("completedAt", jOptStr task.completed_at),
                    ("assignee", .str (assigneeName task)),
                    ("project", .str (membershipProject task)),
                    ("section", .str (membershipSection task))]))),
            ("date", .str todayStr)]

/-- `get_tasks_updated_today` (daily-status.ts:74-139); the filter at lines
99-101 is `task.modified_at && task.modified_at >= todayStart`
(`modified_at` is a required string field), followed by the optional
`!task.completed` filter. -/
def getTasksUpdatedToday (c : AsanaClientM) (assignee : Option String)
    (includeCompleted : Bool) (todayStart todayStr : String) : JVal :=
  match c.getTasksR { modified_since := some todayStart, assignee := assignee } with
  | .error e =>
    .obj [("error", .str s!"Failed to fetch updated tasks: {e}"),
          ("count", .num 0), ("tasks", .arr [])]
  | .ok tasks =>
    let filteredTasks := tasks.filter (fun task =>
      !task.modified_at.isEmpty && decide (todayStart ≤ task.modified_at))
    let filteredTasks :=
      if !includeCompleted then filteredTasks.filter (fun task => !task.completed)
      else filteredTasks
    if filteredTasks.isEmpty then
      .obj [("message", .str "No tasks were updated today."),
            ("count", .num 0), ("tasks", .arr [])]
    else
      .obj [("message", .str s!"{filteredTasks.length} task(s) updated today."),
            ("count", .num filteredTasks.length),
            ("tasks", .arr (filteredTasks.map (fun task =>
              .obj [("name", .str task.name), ("gid", .str task.gid),
                    ("modifiedAt", .str task.modified_at),
                    ("completed", .jbool task.completed),
                    ("assignee", .str (assigneeName task)),
                    ("project", .str (membershipProject task)),
                    ("section", .str (membershipSection task))]))),
            ("date", .str todayStr)]

/-- `get_tasks_due_today` (daily-status.ts:144-210); filter at lines 169-172:
`if (!task.due_on) return false; return task.due_on === todayStr;`. -/
def getTasksDueToday (c : AsanaClientM) (assignee : Option String)
    (excludeCompleted : Bool) (todayStr : String) : JVal :=
  match c.getTasksR { assignee := assignee } with
  | .error e =>
    .obj [("error", .str s!"Failed to fetch tasks due today: {e}"),
          ("count", .num 0), ("tasks", .arr [])]
  | .ok tasks =>
    let dueToday := tasks.filter (fun task =>
      optTruthy task.due_on && task.due_on == some todayStr)
    let dueToday :=
      if excludeCompleted then dueToday.filter (fun task => !task.completed)
      else dueToday
    if dueToday.isEmpty then
      .obj [("message", .str "No tasks are due today."),
            ("count", .num 0), ("tasks", .arr [])]
    else
      .obj [("message", .str s!"{dueToday.length} task(s) due today."),
            ("count", .num dueToday.length),
            ("tasks", .arr (dueToday.map (fun task =>
              .obj [("name", .str task.name), ("gid", .str task.gid),
                    ("dueOn", jOptStr task.due_on),
                    ("completed", .jbool task.completed),
                    ("assignee", .str (assigneeName task)),
                    ("project", .str (membershipProject task)),
                    ("section", .str (membershipSection task))]))),
            ("date", .str todayStr)]

/-! ## Additional query tools (`src/tools/additional-queries.ts`, part_003) -/

/-- The overdue filter (additional-queries.ts:34-36):
`!task.completed && task.due_on && task.due_on < todayStr`. -/
def overduePred (todayStr : String) (task : AsanaTask) : Bool :=
  !task.completed &&
    (match task.due_on with
     | some d => !d.isEmpty && decide (d < todayStr)
     | none => false)

/-- The comparator of the overdue sort (additional-queries.ts:47-50), as the
boolean `compare(a,b) <= 0` relation used by a stable sort:
`if (!a.due_on || !b.due_on) return 0; return a.due_on.localeCompare(b.due_on)`. -/
def dueLe (a b : AsanaTask) : Bool :=
  if !optTruthy a.due_on || !optTruthy b.due_on then true
  else decide (a.due_on.getD "" ≤ b.due_on.getD "")

/-- Filter then stable-sort ascending by due date: the list
`get_overdue_tasks` renders. -/
def overdueSorted (todayStr : String) (tasks : List AsanaTask) :
    List AsanaTask :=
  (tasks.filter (overduePred todayStr)).mergeSort dueLe

/-- `Math.floor((today.getTime() - new Date(dueDate).getTime()) / 86400000)`
(additional-queries.ts:54-56); `nowMs` is `today.getTime()` and `parseMs`
embeds `new Date(s).getTime()`. -/
def daysOverdue (nowMs : Int) (parseMs : String → Int) (dueDate : String) : Int :=
  (nowMs - parseMs dueDate).fdiv 86400000

/-- `get_overdue_tasks` (additional-queries.ts:14-82). -/
def getOverdueTasks (c : AsanaClientM) (assignee : Option String)
    (todayStr : String) (nowMs : Int) (parseMs : String → Int) : JVal :=
  match c.getTasksR { assignee := assignee } with
  | .error e =>
    .obj [("error", .str s!"Failed to fetch overdue tasks: {e}"),
          ("count", .num 0), ("tasks", .arr [])]
  | .ok tasks =>
    let overdueTasks := tasks.filter (overduePred todayStr)
    if overdueTasks.isEmpty then
      .obj [("message", .str "No overdue tasks found."),
            ("count", .num 0), ("tasks", .arr [])]
    else
      let sorted := overdueTasks.mergeSort dueLe
      .obj [("message", .str s!"{overdueTasks.length} overdue task(s) found."),
            ("count", .num overdueTasks.length),
            ("tasks", .arr (sorted.map (fun task =>
              .obj [("name", .str task.name), ("gid", .str task.gid),
                    ("dueOn", .str (task.due_on.getD "")),
                    ("daysOverdue", .num (daysOverdue nowMs parseMs (task.due_on.getD ""))),
                    ("assignee", .str (assigneeName task)),
                    ("project", .str (membershipProject task)),
                    ("section", .str (membershipSection task))])))]

/-- `get_unassigned_tasks` (additional-queries.ts:87-139). -/
def getUnassignedTasks (c : AsanaClientM) (excludeCompleted : Bool) : JVal :=
  match c.getTasksR {} with
  | .error e =>
    .obj [("error", .str s!"Failed to fetch unassigned tasks: {e}"),
          ("count", .num 0), ("tasks", .arr [])]
  | .ok tasks =>
    let unassignedTasks := tasks.filter (fun task => task.assignee.isNone)
    let unassignedTasks :=
      if excludeCompleted then unassignedTasks.filter (fun task => !task.completed)
      else unassignedTasks
    if unassignedTasks.isEmpty then
      .obj [("message", .str "No unassigned tasks found."),
            ("count", .num 0), ("tasks", .arr [])]
    else
      .obj [("message", .str s!"{unassignedTasks.length} unassigned task(s) found."),
            ("count", .num unassignedTasks.length),
            ("tasks", .arr (unassignedTasks.map (fun task =>
              .obj [("name", .str task.name), ("gid", .str task.gid),
                    ("dueOn", .str (strOr task.due_on "No due date")),
                    ("completed", .jbool task.completed),
                    ("project", .str (membershipProject task)),
                    ("section", .str (membershipSection task))])))]

/-- `get_tasks_without_due_dates` (additional-queries.ts:144-203); filter:
`!task.due_on && !task.due_at`. -/
def getTasksWithoutDueDates (c : AsanaClientM) (excludeCompleted : Bool)
    (assignee : Option String) : JVal :=
  match c.getTasksR { assignee := assignee } with
  | .error e =>
    .obj [("error", .str s!"Failed to fetch tasks without due dates: {e}"),
          ("count", .num 0), ("tasks", .arr [])]
  | .ok tasks =>
    let tasksWithoutDueDate := tasks.filter (fun task =>
      !optTruthy task.due_on && !optTruthy task.due_at)
    let tasksWithoutDueDate :=
      if excludeCompleted then tasksWithoutDueDate.filter (fun task => !task.completed)
      else tasksWithoutDueDate
    if tasksWithoutDueDate.isEmpty then
      .obj [("message", .str "No tasks without due dates found."),
            ("count", .num 0), ("tasks", .arr [])]
    else
      .obj [("message",
             .str s!"{tasksWithoutDueDate.length} task(s) without due dates found."),
            ("count", .num tasksWithoutDueDate.length),
            ("tasks", .arr (tasksWithoutDueDate.map (fun task =>
              .obj [("name", .str task.name), ("gid", .str task.gid),
                    ("assignee", .str (assigneeName task)),
                    ("completed", .jbool task.completed),
                    ("project", .str (membershipProject task)),
                    ("section", .str (membershipSection task)),
                    ("createdAt", .str task.created_at)])))]

/-- `search_tasks_by_name` (additional-queries.ts:208-267); case-insensitive
substring match on the task name. -/
def searchTasksByName (c : AsanaClientM) (searchQuery : String)
    (excludeCompleted : Bool) : JVal :=
  match c.getTasksR {} with
  | .error e =>
    .obj [("error", .str s!"Failed to search tasks: {e}"),
          ("count", .num 0), ("tasks", .arr [])]
  | .ok tasks =>
    let searchLower := jsToLower searchQuery
    let matchingTasks := tasks.filter (fun task =>
      (jsToLower task.name).containsSubstr searchLower.toSubstring)
    let matchingTasks :=
      if excludeCompleted then matchingTasks.filter (fun task => !task.completed)
      else matchingTasks
    if matchingTasks.isEmpty then
      .obj [("message", .str ("No tasks found matching \"" ++ searchQuery ++ "\".")),
            ("count", .num 0), ("tasks", .arr [])]
    else
      .obj [("message",
             .str ("Found " ++ toString matchingTasks.length
                ++ " task(s) matching \"" ++ searchQuery ++ "\".")),
            ("count", .num matchingTasks.length),
            ("searchQuery", .str searchQuery),
            ("tasks", .arr (matchingTasks.map (fun task =>
              .obj [("name", .str task.name), ("gid", .str task.gid),
                    ("completed", .jbool task.completed),
                    ("dueOn", .str (strOr task.due_on "No due date")),
                    ("assignee", .str (assigneeName task)),
                    ("project", .str (membershipProject task)),
                    ("section", .str (membershipSection task))])))]

/-- `get_workspace_users` (additional-queries.ts:272-308). -/
def getWorkspaceUsersTool (c : AsanaClientM) : JVal :=
  match c.getWorkspaceUsersR with
  | .error e =>
    .obj [("error", .str s!"Failed to fetch workspace users: {e}"),
          ("count", .num 0), ("users", .arr [])]
  | .ok users =>
    if users.isEmpty then
      .obj [("message", .str "No users found in the workspace."),
            ("count", .num 0), ("users", .arr [])]
    else
      .obj [("message", .str s!"Found {users.length} user(s) in the workspace."),
            ("count", .num users.length),
            ("users", .arr (users.map (fun user =>
              .obj [("name", .str user.name), ("gid", .str user.gid),
                    ("email", .str (emailOr user))])))]

/-- `get_me` (additional-queries.ts:313-335); the catch returns only the
error message (no count or collection fields). -/
def getMeTool (c : AsanaClientM) : JVal :=
  match c.getMeR with
  | .error e => .obj [("error", .str s!"Failed to fetch current user: {e}")]
  | .ok me =>
    .obj [("message", .str s!"Current user identified: {me.name}"),
          ("user", .obj [("name", .str me.name), ("gid", .str me.gid),
                         ("email", .str (emailOr me))])]

/-- `search_users` (additional-queries.ts:340-378). -/
def searchUsersTool (c : AsanaClientM) (query : String) : JVal :=
  match c.searchUsersC query with
  | .error e =>
    .obj [("error", .str s!"Failed to search users: {e}"),
          ("count", .num 0), ("users", .arr [])]
  | .ok users =>
    if users.isEmpty then
      .obj [("message", .str ("No users found matching \"" ++ query ++ "\".")),
            ("count", .num 0), ("users", .arr [])]
    else
      .obj [("message",
             .str ("Found " ++ toString users.length ++ " user(s) matching \""
                ++ query ++ "\".")),
            ("count", .num users.length),
            ("users", .arr (users.map (fun user =>
              .obj [("name", .str user.name), ("gid", .str user.gid),
                    ("email", .str (emailOr user))])))]

/-! ## Generic embedding of JS `Map` / object-keyed grouping

JS `Map` and plain objects preserve insertion order; they are embedded as
association lists where a new key is appended at the end and an update
rewrites the first (unique) occurrence. -/

def containsKey {β : Type} (m : List (String × β)) (k : String) : Bool :=
  m.any (fun p => p.1 == k)

def findVal? {β : Type} : List (String × β) → String → Option β
  | [], _ => none
  | (k', v) :: rest, k => if k' == k then some v else findVal? rest k

def updateFirst {β : Type} : List (String × β) → String → (β → β) → List (String × β)
  | [], _, _ => []
  | (k', v) :: rest, k, f =>
    if k' == k then (k', f v) :: rest else (k', v) :: updateFirst rest k f

/-- `obj[k] = (obj[k] ?? []).push(v)` in insertion order. -/
def pushAt {β : Type} (m : List (String × List β)) (k : String) (v : β) :
    List (String × List β) :=
  if containsKey m k then updateFirst m k (fun xs => xs ++ [v])
  else m ++ [(k, [v])]

/-! ## Weekly planning tools (`src/tools/weekly-planning.ts`, part_004) -/

/-- `get_weekly_planned_tasks` (weekly-planning.ts:15-96); `weekStartStr` and
`weekEndStr` are the Monday/Sunday of the current week, `yyyy-MM-dd`. -/
def getWeeklyPlannedTasks (c : AsanaClientM) (assignee : Option String)
    (excludeCompleted : Bool) (weekStartStr weekEndStr : String) : JVal :=
  match c.getTasksR { assignee := assignee } with
  | .error e =>
    .obj [("error", .str s!"Failed to fetch weekly tasks: {e}"),
          ("count", .num 0), ("tasks", .arr [])]
  | .ok tasks =>
    let weeklyTasks := tasks.filter (fun task =>
      optTruthy task.due_on &&
        decide (weekStartStr ≤ task.due_on.getD "") &&
        decide (task.due_on.getD "" ≤ weekEndStr))
    let weeklyTasks :=
      if excludeCompleted then weeklyTasks.filter (fun task => !task.completed)
      else weeklyTasks
    if weeklyTasks.isEmpty then
      .obj [("message", .str "No tasks planned for this week."),
            ("count", .num 0), ("tasks", .arr []),
            ("weekStart", .str weekStartStr), ("weekEnd", .str weekEndStr)]
    else
      let tasksByDay := weeklyTasks.foldl (fun m task =>
        pushAt m (task.due_on.getD "")
          (.obj [("name", .str task.name), ("gid", .str task.gid),
                 ("completed", .jbool task.completed),
                 ("assignee", .str (assigneeName task)),
                 ("project", .str (membershipProject task)),
                 ("section", .str (membershipSection task))])) []
      .obj [("message", .str s!"{weeklyTasks.length} task(s) planned for this week."),
            ("count", .num weeklyTasks.length),
            ("weekStart", .str weekStartStr), ("weekEnd", .str weekEndStr),
            ("tasksByDay", .obj (tasksByDay.map (fun p => (p.1, JVal.arr p.2))))]

/-- `UserWorkload` (types/asana.ts). -/
structure UserWorkload where
  user : AsanaUser
  totalTasks : Nat
  completedTasks : Nat
  overdueTasks : Nat
  upcomingTasks : Nat
deriving Repr, DecidableEq

/-- `task.assignee?.gid || 'unassigned'` (weekly-planning.ts:126). -/
def workloadKey (task : AsanaTask) : String :=
  match task.assignee with
  | some u => if u.gid.isEmpty then "unassigned" else u.gid
  | none => "unassigned"

/-- The per-task tallies of `get_team_workload` (weekly-planning.ts:138-152). -/
def bumpWorkload (todayStr : String) (task : AsanaTask) (w : UserWorkload) :
    UserWorkload :=
  let w := { w with totalTasks := w.totalTasks + 1 }
  let w :=
    if task.completed then { w with completedTasks := w.completedTasks + 1 } else w
  if optTruthy task.due_on && !task.completed then
    if decide (task.due_on.getD "" < todayStr) then
      { w with overdueTasks := w.overdueTasks + 1 }
    else
      { w with upcomingTasks := w.upcomingTasks + 1 }
  else w

/-- One iteration of the `tasks.forEach` grouping loop of `get_team_workload`
(weekly-planning.ts:123-152). -/
def workloadStep (includeCompleted : Bool) (todayStr : String)
    (m : List (String × UserWorkload)) (task : AsanaTask) :
    List (String × UserWorkload) :=
  if !includeCompleted && task.completed then m
  else
    let assigneeGid := workloadKey task
    let m :=
      if containsKey m assigneeGid then m
      else m ++ [(assigneeGid,
        { user := task.assignee.getD { gid := "unassigned", name := "Unassigned", email := none },
          totalTasks := 0, completedTasks := 0, overdueTasks := 0, upcomingTasks := 0 })]
    updateFirst m assigneeGid (bumpWorkload todayStr task)

/-- The sort comparator `(a, b) => b.totalTasks - a.totalTasks` as the
boolean `compare(a,b) <= 0` relation (weekly-planning.ts:154-156). -/
def wLe (a b : UserWorkload) : Bool :=
  decide ((b.totalTasks : Int) - (a.totalTasks : Int) ≤ 0)

/-- `Array.from(workloadMap.values()).sort(...)`: the grouped buckets in
insertion order, stable-sorted descending by total task count. -/
def teamWorkloadArray (includeCompleted : Bool) (todayStr : String)
    (tasks : List AsanaTask) : List UserWorkload :=
  ((tasks.foldl (workloadStep includeCompleted todayStr) []).map
    (fun p => p.2)).mergeSort wLe

/-- `Math.round((completed / total) * 100)` for natural `completed ≤ total`,
embedded as exact rational rounding (round half up):
`⌊100 * completed / total + 1/2⌋`. -/
def roundRate (completed total : Nat) : Nat :=
  (200 * completed + total) / (2 * total)

/-- One entry of the `summary` array (weekly-planning.ts:166-174). -/
structure WorkloadSummary where
  user : String
  userGid : String
  totalTasks : Nat
  completedTasks : Nat
  overdueTasks : Nat
  upcomingTasks : Nat
  completionRate : Nat
deriving Repr, DecidableEq

/-- `workloadArray.map(w => ({...}))` (weekly-planning.ts:166-174);
`completionRate: w.totalTasks > 0 ? Math.round(...) : 0`. -/
def summarizeWorkload (w : UserWorkload) : WorkloadSummary :=
  { user := w.user.name, userGid := w.user.gid,
    totalTasks := w.totalTasks, completedTasks := w.completedTasks,
    overdueTasks := w.overdueTasks, upcomingTasks := w.upcomingTasks,
    completionRate :=
      if 0 < w.totalTasks then roundRate w.completedTasks w.totalTasks else 0 }

/-- The workload summary list `get_team_workload` renders. -/
def teamWorkloadSummary (includeCompleted : Bool) (todayStr : String)
    (tasks : List AsanaTask) : List WorkloadSummary :=
  (teamWorkloadArray includeCompleted todayStr tasks).map summarizeWorkload

/-- `get_team_workload` (weekly-planning.ts:101-190). -/
def getTeamWorkload (c : AsanaClientM) (includeCompleted : Bool)
    (todayStr : String) : JVal :=
  match c.getTasksR {} with
  | .error e =>
    .obj [("error", .str s!"Failed to analyze team workload: {e}"),
          ("teamMembers", .num 0), ("workload", .arr [])]
  | .ok tasks =>
    let workloadArray := teamWorkloadArray includeCompleted todayStr tasks
    if workloadArray.isEmpty then
      .obj [("message", .str "No tasks found for workload analysis."),
            ("teamMembers", .num 0), ("workload", .arr [])]
    else
      .obj [("message",
             .str s!"Workload analysis for {workloadArray.length} team member(s)."),
            ("teamMembers", .num workloadArray.length),
            ("totalTasks",
             .num (workloadArray.foldl (fun sum w => sum + w.totalTasks) 0)),
            ("workload", .arr ((workloadArray.map summarizeWorkload).map (fun s =>
              .obj [("user", .str s.user), ("userGid", .str s.userGid),
                    ("totalTasks", .num s.totalTasks),
                    ("completedTasks", .num s.completedTasks),
                    ("overdueTasks", .num s.overdueTasks),
                    ("upcomingTasks", .num s.upcomingTasks),
                    ("completionRate", .num s.completionRate)])))]

/-- One bucket of `get_overdue_tasks_by_person` (weekly-planning.ts:227-243). -/
structure PersonOverdue where
  user : String
  userGid : String
  overdueCount : Nat
  tasks : List JVal

/-- One iteration of the grouping loop of `get_overdue_tasks_by_person`. -/
def overdueByPersonStep (m : List (String × PersonOverdue)) (task : AsanaTask) :
    List (String × PersonOverdue) :=
  let assigneeGid := workloadKey task
  let m :=
    if containsKey m assigneeGid then m
    else m ++ [(assigneeGid,
      { user := assigneeName task, userGid := assigneeGid,
        overdueCount := 0, tasks := [] })]
  updateFirst m assigneeGid (fun p =>
    { p with overdueCount := p.overdueCount + 1,
             tasks := p.tasks ++ [JVal.obj
               [("name", .str task.name), ("gid", .str task.gid),
                ("dueOn", jOptStr task.due_on),
                ("project", .str (membershipProject task))]] })

/-- The comparator `(a, b) => b.overdueCount - a.overdueCount` as a boolean
relation. -/
def personLe (a b : PersonOverdue) : Bool :=
  decide ((b.overdueCount : Int) - (a.overdueCount : Int) ≤ 0)

/-- `get_overdue_tasks_by_person` (weekly-planning.ts:195-263). -/
def getOverdueTasksByPerson (c : AsanaClientM) (todayStr : String) : JVal :=
  match c.getTasksR {} with
  | .error e =>
    .obj [("error", .str s!"Failed to fetch overdue tasks: {e}"),
          ("totalOverdue", .num 0), ("byPerson", .arr [])]
  | .ok tasks =>
    let overdueTasks := tasks.filter (overduePred todayStr)
    if overdueTasks.isEmpty then
      .obj [("message", .str "No overdue tasks found."),
            ("totalOverdue", .num 0), ("byPerson", .arr [])]
    else
      let resultArray :=
        ((overdueTasks.foldl overdueByPersonStep []).map (fun p => p.2)).mergeSort
          personLe
      .obj [("message",
             .str (toString overdueTasks.length ++ " overdue task(s) across "
                ++ toString resultArray.length ++ " team member(s).")),
            ("totalOverdue", .num overdueTasks.length),
            ("byPerson", .arr (resultArray.map (fun p =>
              .obj [("user", .str p.user), ("userGid", .str p.userGid),
                    ("overdueCount", .num p.overdueCount),
                    ("tasks", .arr p.tasks)])))]

/-! ## Project status tools (`src/tools/project-status.ts`, part_005) -/

/-- One entry of `sectionStatuses` in `get_project_status`
(project-status.ts:39-51); the TS field `section` is called `sect`. -/
structure SectionStatus where
  sect : AsanaSection
  totalTasks : Nat
  completedTasks : Nat
  completionRate : Nat
deriving Repr, DecidableEq

/-- The sequential `for (const section of sections)` loop of
`get_project_status` (project-status.ts:41-51): each iteration awaits
`getSectionTasks`; the first rejection aborts the whole loop into the
tool's catch. -/
def sectionStatusesE (c : AsanaClientM) :
    List AsanaSection → Except String (List SectionStatus)
  | [] => .ok []
  | s :: rest =>
    match c.getSectionTasksR s.gid with
    | .error e => .error e
    | .ok tasks =>
      match sectionStatusesE c rest with
      | .error e => .error e
      | .ok r =>
        let completedTasks := (tasks.filter (fun t => t.completed)).length
        .ok ({ sect := s, totalTasks := tasks.length,
               completedTasks := completedTasks,
               completionRate :=
                 if 0 < tasks.length then roundRate completedTasks tasks.length
                 else 0 } :: r)

/-- One entry of `sortedSections` (project-status.ts:59-67). -/
structure SectionSummary where
  name : String
  totalTasks : Nat
  completedTasks : Nat
  incompleteTasks : Nat
  completionRate : Nat
deriving Repr, DecidableEq

/-- The comparator `(a, b) => b.incompleteTasks - a.incompleteTasks` as a
boolean relation. -/
def sectionLe (a b : SectionSummary) : Bool :=
  decide ((b.incompleteTasks : Int) - (a.incompleteTasks : Int) ≤ 0)

/-- `get_project_status` (project-status.ts:14-86); its catch at lines 80-84
returns only the error message. -/
def getProjectStatus (c : AsanaClientM) (projectName : String) : JVal :=
  match c.findProjectByName projectName with
  | .error e => .obj [("error", .str s!"Failed to analyze project status: {e}")]
  | .ok none =>
    .obj [("error", .str ("Project \"" ++ projectName ++ "\" not found.")),
          ("suggestions",
           .str "Try listing all projects first to find the exact name.")]
  | .ok (some project) =>
    match c.getProjectSectionsR project.gid with
    | .error e => .obj [("error", .str s!"Failed to analyze project status: {e}")]
    | .ok sections =>
      match sectionStatusesE c sections with
      | .error e => .obj [("error", .str s!"Failed to analyze project status: {e}")]
      | .ok sectionStatuses =>
        let totalTasks := sectionStatuses.foldl (fun sum s => sum + s.totalTasks) 0
        let completedTasks :=
          sectionStatuses.foldl (fun sum s => sum + s.completedTasks) 0
        let completionRate :=
          if 0 < totalTasks then roundRate completedTasks totalTasks else 0
        let sortedSections :=
          ((sectionStatuses.map (fun s =>
            { name := s.sect.name, totalTasks := s.totalTasks,
              completedTasks := s.completedTasks,
              incompleteTasks := s.totalTasks - s.completedTasks,
              completionRate := s.completionRate : SectionSummary })).mergeSort
            sectionLe)
        .obj [("message",
               .str ("Project \"" ++ project.name ++ "\" has "
                  ++ toString totalTasks ++ " total tasks ("
                  ++ toString completionRate ++ "% complete).")),
              ("projectName", .str project.name),
              ("projectGid", .str project.gid),
              ("totalTasks", .num totalTasks),
              ("completedTasks", .num completedTasks),
              ("incompleteTasks", .num (totalTasks - completedTasks)),
              ("completionRate", .num completionRate),
              ("sectionCount", .num sections.length),
              ("sections", .arr (sortedSections.map (fun s =>
                .obj [("name", .str s.name), ("totalTasks", .num s.totalTasks),
                      ("completedTasks", .num s.completedTasks),
                      ("incompleteTasks", .num s.incompleteTasks),
                      ("completionRate", .num s.completionRate)])))]

/-- One entry of `sectionWorkload` in `get_section_with_most_work`
(project-status.ts:127-133). -/
structure SectionWork where
  sectionName : String
  sectionGid : String
  totalTasks : Nat
  incompleteTasks : Nat
  completedTasks : Nat
deriving Repr, DecidableEq

/-- The sequential per-section loop of `get_section_with_most_work`
(project-status.ts:123-134). -/
def sectionWorkloadE (c : AsanaClientM) :
    List AsanaSection → Except String (List SectionWork)
  | [] => .ok []
  | s :: rest =>
    match c.getSectionTasksR s.gid with
    | .error e => .error e
    | .ok tasks =>
      match sectionWorkloadE c rest with
      | .error e => .error e
      | .ok r =>
        let incompleteTasks := (tasks.filter (fun t => !t.completed)).length
        .ok ({ sectionName := s.name, sectionGid := s.gid,
               totalTasks := tasks.length,
               incompleteTasks := incompleteTasks,
               completedTasks := tasks.length - incompleteTasks } :: r)

/-- The comparator `(a, b) => b.incompleteTasks - a.incompleteTasks` of
`get_section_with_most_work` as a boolean relation. -/
def sectionWorkLe (a b : SectionWork) : Bool :=
  decide ((b.incompleteTasks : Int) - (a.incompleteTasks : Int) ≤ 0)

/-- `get_section_with_most_work` (project-status.ts:91-154).  Reading
`sectionWorkload[0]` of an empty array would throw inside the `try` and be
caught; that branch is unreachable because empty `sections` returns early. -/
def getSectionWithMostWork (c : AsanaClientM) (projectName : String) : JVal :=
  match c.findProjectByName projectName with
  | .error e => .obj [("error", .str s!"Failed to analyze section workload: {e}")]
  | .ok none =>
    .obj [("error", .str ("Project \"" ++ projectName ++ "\" not found."))]
  | .ok (some project) =>
    match c.getProjectSectionsR project.gid with
    | .error e => .obj [("error", .str s!"Failed to analyze section workload: {e}")]
    | .ok sections =>
      if sections.isEmpty then
        .obj [("message",
               .str ("Project \"" ++ project.name ++ "\" has no sections."))]
      else
        match sectionWorkloadE c sections with
        | .error e =>
          .obj [("error", .str s!"Failed to analyze section workload: {e}")]
        | .ok sectionWorkload =>
          match sectionWorkload.mergeSort sectionWorkLe with
          | [] => .obj [("error", .str "Failed to analyze section workload: TypeError")]
          | busiestSection :: restSorted =>
            .obj [("message",
                   .str ("Section \"" ++ busiestSection.sectionName
                      ++ "\" has the most work with "
                      ++ toString busiestSection.incompleteTasks
                      ++ " incomplete task(s).")),
                  ("projectName", .str project.name),
                  ("busiestSection", .str busiestSection.sectionName),
                  ("incompleteTasks", .num busiestSection.incompleteTasks),
                  ("allSections", .arr ((busiestSection :: restSorted).map (fun s =>
                    .obj [("sectionName", .str s.sectionName),
                          ("sectionGid", .str s.sectionGid),
                          ("totalTasks", .num s.totalTasks),
                          ("incompleteTasks", .num s.incompleteTasks),
                          ("completedTasks", .num s.completedTasks)])))]

/-- `list_all_projects` (project-status.ts:159-194). -/
def listAllProjects (c : AsanaClientM) : JVal :=
  match c.getWorkspaceProjectsR with
  | .error e =>
    .obj [("error", .str s!"Failed to list projects: {e}"),
          ("count", .num 0), ("projects", .arr [])]
  | .ok projects =>
    if projects.isEmpty then
      .obj [("message", .str "No projects found in the workspace."),
            ("count", .num 0), ("projects", .arr [])]
    else
      .obj [("message", .str s!"Found {projects.length} project(s) in the workspace."),
            ("count", .num projects.length),
            ("projects", .arr (projects.map (fun p =>
              .obj [("name", .str p.name), ("gid", .str p.gid)])))]

/-! ## Due date tracking tools (`src/tools/due-date-tracking.ts`) -/

/-- The due-date-change predicate (due-date-tracking.ts:30-34):
`story.resource_subtype === 'due_date_changed' ||
 (story.new_due_on && story.old_due_on && story.new_due_on !== story.old_due_on)`. -/
def isDueDateChange (story : AsanaStory) : Bool :=
  story.resource_subtype == "due_date_changed" ||
    (optTruthy story.new_due_on && optTruthy story.old_due_on &&
      story.new_due_on != story.old_due_on)

/-- `get_task_due_date_changes` (due-date-tracking.ts:14-70). -/
def getTaskDueDateChanges (c : AsanaClientM) (taskGid : String) : JVal :=
  match c.getTaskR taskGid with
  | .error e =>
    .obj [("error", .str s!"Failed to fetch due date changes: {e}"),
          ("changeCount", .num 0), ("changes", .arr [])]
  | .ok task =>
    match c.getTaskStoriesR taskGid with
    | .error e =>
      .obj [("error", .str s!"Failed to fetch due date changes: {e}"),
            ("changeCount", .num 0), ("changes", .arr [])]
    | .ok stories =>
      let dueDateChanges := stories.filter isDueDateChange
      if dueDateChanges.isEmpty then
        .obj [("message",
               .str ("Task \"" ++ task.name ++ "\" has no due date changes recorded.")),
              ("taskName", .str task.name), ("taskGid", .str task.gid),
              ("currentDueDate", .str (strOr task.due_on "No due date")),
              ("changeCount", .num 0), ("changes", .arr [])]
      else
        .obj [("message",
               .str ("Task \"" ++ task.name ++ "\" has had its due date changed "
                  ++ toString dueDateChanges.length ++ " time(s).")),
              ("taskName", .str task.name), ("taskGid", .str task.gid),
              ("currentDueDate", .str (strOr task.due_on "No due date")),
              ("changeCount", .num dueDateChanges.length),
              ("changes", .arr (dueDateChanges.map (fun story =>
                .obj [("date", .str story.created_at),
                      ("oldDueDate", .str (strOr story.old_due_on "No due date")),
                      ("newDueDate", .str (strOr story.new_due_on "Removed")),
                      ("changedBy", .str story.created_by.name)])))]

/-- One raw change record pushed by `get_most_postponed_tasks`
(due-date-tracking.ts:113-118). -/
structure ChangeRec where
  date : String
  oldDueDate : Option String
  newDueDate : Option String
  changedBy : AsanaUser
deriving Repr, DecidableEq

/-- `DueDateChange` (types/asana.ts): a task together with its due-date
change records and their count. -/
structure DueDateChange where
  task : AsanaTask
  changes : List ChangeRec
  changeCount : Nat
deriving Repr, DecidableEq

/-- The incomplete-with-due-date pre-filter of `get_most_postponed_tasks`
(due-date-tracking.ts:90): `tasks.filter(t => !t.completed && t.due_on)`. -/
def postponedPre (t : AsanaTask) : Bool :=
  !t.completed && optTruthy t.due_on

/-- The per-task history scan of `get_most_postponed_tasks`
(due-date-tracking.ts:102-130): one `getTaskStories` per task, in list
order; a rejected fetch is swallowed (`catch` at 126-129) and the task is
skipped; tasks whose filtered history is empty are also skipped. -/
def postponedScan (c : AsanaClientM) : List AsanaTask → List DueDateChange
  | [] => []
  | task :: rest =>
    match c.getTaskStoriesR task.gid with
    | .error _ => postponedScan c rest
    | .ok stories =>
      let dueDateChanges := stories.filter isDueDateChange
      if dueDateChanges.isEmpty then postponedScan c rest
      else
        { task := task,
          changes := dueDateChanges.map (fun story =>
            { date := story.created_at, oldDueDate := story.old_due_on,
              newDueDate := story.new_due_on, changedBy := story.created_by }),
          changeCount := dueDateChanges.length } :: postponedScan c rest

/-- The comparator `(a, b) => b.changeCount - a.changeCount` as a boolean
relation (due-date-tracking.ts:140). -/
def changeLe (a b : DueDateChange) : Bool :=
  decide ((b.changeCount : Int) - (a.changeCount : Int) ≤ 0)

/-- The sorted-and-truncated list `get_most_postponed_tasks` renders:
stable sort descending by change count, then `slice(0, limit)`. -/
def mostPostponedTop (c : AsanaClientM) (limit : Nat) (tasks : List AsanaTask) :
    List DueDateChange :=
  ((postponedScan c (tasks.filter postponedPre)).mergeSort changeLe).take limit

/-- `get_most_postponed_tasks` (due-date-tracking.ts:75-167); `limit`
defaults to 10 at the schema level. -/
def getMostPostponedTasks (c : AsanaClientM) (limit : Nat) : JVal :=
  match c.getTasksR {} with
  | .error e =>
    .obj [("error", .str s!"Failed to analyze postponed tasks: {e}"),
          ("tasks", .arr [])]
  | .ok tasks =>
    let incompleteTasks := tasks.filter postponedPre
    if incompleteTasks.isEmpty then
      .obj [("message", .str "No incomplete tasks with due dates found."),
            ("tasks", .arr [])]
    else
      let tasksWithChanges := postponedScan c incompleteTasks
      if tasksWithChanges.isEmpty then
        .obj [("message", .str "No tasks with due date changes found."),
              ("tasks", .arr [])]
      else
        let topPostponed := (tasksWithChanges.mergeSort changeLe).take limit
        .obj [("message",
               .str ("Found " ++ toString tasksWithChanges.length
                  ++ " task(s) with due date changes. Showing top "
                  ++ toString topPostponed.length ++ ".")),
              ("totalTasksWithChanges", .num tasksWithChanges.length),
              ("tasks", .arr (topPostponed.map (fun item =>
                .obj [("taskName", .str item.task.name),
                      ("taskGid", .str item.task.gid),
                      ("currentDueDate", jOptStr item.task.due_on),
                      ("assignee", .str (assigneeName item.task)),
                      ("project", .str (membershipProject item.task)),
                      ("postponeCount", .num item.changeCount),
                      ("lastChange",
                       match item.changes.head? with
                       | some ch => .str ch.date
                       | none => .jundefined)])))]

/-- One record pushed by `get_recent_due_date_changes`
(due-date-tracking.ts:219-228). -/
structure RecentChange where
  taskName : String
  taskGid : String
  assignee : String
  project : String
  oldDueDate : String
  newDueDate : String
  changedBy : String
  changedAt : String
deriving Repr, DecidableEq

/-- The per-task scan of `get_recent_due_date_changes`
(due-date-tracking.ts:205-234): stories are filtered to events at or after
the cutoff matching the due-date-change predicate; the first such event is
reported; per-task fetch failures are swallowed. -/
def recentScan (c : AsanaClientM) (cutoffStr : String) :
    List AsanaTask → List RecentChange
  | [] => []
  | task :: rest =>
    match c.getTaskStoriesR task.gid with
    | .error _ => recentScan c cutoffStr rest
    | .ok stories =>
      let recentDueDateChanges := stories.filter (fun story =>
        !decide (story.created_at < cutoffStr) && isDueDateChange story)
      match recentDueDateChanges.head? with
      | none => recentScan c cutoffStr rest
      | some latestChange =>
        { taskName := task.name, taskGid := task.gid,
          assignee := assigneeName task, project := membershipProject task,
          oldDueDate := strOr latestChange.old_due_on "No due date",
          newDueDate := strOr latestChange.new_due_on "Removed",
          changedBy := latestChange.created_by.name,
          changedAt := latestChange.created_at } :: recentScan c cutoffStr rest

/-- The comparator
`(a, b) => new Date(b.changedAt).getTime() - new Date(a.changedAt).getTime()`
as a boolean relation; `parseMs` embeds `new Date(s).getTime()`. -/
def recentLe (parseMs : String → Int) (a b : RecentChange) : Bool :=
  decide (parseMs b.changedAt - parseMs a.changedAt ≤ 0)

/-- `get_recent_due_date_changes` (due-date-tracking.ts:172-260); `days`
defaults to 7, `cutoffStr` is the ISO timestamp `days` days before now. -/
def getRecentDueDateChanges (c : AsanaClientM) (days : Nat)
    (cutoffStr : String) (parseMs : String → Int) : JVal :=
  match c.getTasksR { modified_since := some cutoffStr } with
  | .error e =>
    .obj [("error", .str s!"Failed to fetch recent due date changes: {e}"),
          ("tasks", .arr [])]
  | .ok tasks =>
    if tasks.isEmpty then
      .obj [("message", .str s!"No tasks were modified in the last {days} day(s)."),
            ("tasks", .arr [])]
    else
      let recentChanges := recentScan c cutoffStr tasks
      if recentChanges.isEmpty then
        .obj [("message",
               .str s!"No due date changes found in the last {days} day(s)."),
              ("tasks", .arr [])]
      else
        let sorted := recentChanges.mergeSort (recentLe parseMs)
        .obj [("message",
               .str ("Found " ++ toString recentChanges.length
                  ++ " task(s) with due date changes in the last "
                  ++ toString days ++ " day(s).")),
              ("count", .num recentChanges.length),
              ("tasks", .arr (sorted.map (fun r =>
                .obj [("taskName", .str r.taskName), ("taskGid", .str r.taskGid),
                      ("assignee", .str r.assignee), ("project", .str r.project),
                      ("oldDueDate", .str r.oldDueDate),
                      ("newDueDate", .str r.newDueDate),
                      ("changedBy", .str r.changedBy),
                      ("changedAt", .str r.changedAt)])))]

/-! ## C8: due-date-change scenario -/

/-- A user for the C8 scenario. -/
def c8User : AsanaUser := { gid := "U1", name := "Alice", email := none }

/-- The task of the C8 scenario. -/
def c8Task : AsanaTask :=
  { gid := "T1", name := "Launch", notes := none, completed := false,
    completed_at := none, created_at := "2024-01-01T00:00:00.000Z",
    modified_at := "2024-01-09T00:00:00.000Z", due_on := none, due_at := none,
    assignee := none, projects := [], memberships := [] }

/-- First change: old `2024-01-01`, new `2024-01-08`. -/
def c8Story1 : AsanaStory :=
  { gid := "S1", created_at := "2024-01-02T00:00:00.000Z", created_by := c8User,
    resource_subtype := "due_date_changed", text := none,
    old_due_on := some "2024-01-01", new_due_on := some "2024-01-08",
    old_due_at := none, new_due_at := none }

/-- Second change: old `2024-01-08`, new `null` (due date removed). -/
def c8Story2 : AsanaStory :=
  { gid := "S2", created_at := "2024-01-09T00:00:00.000Z", created_by := c8User,
    resource_subtype := "due_date_changed", text := none,
    old_due_on := some "2024-01-08", new_due_on := none,
    old_due_at := none, new_due_at := none }

/-- A client whose task/story fetches return the C8 history. -/
def c8Client : AsanaClientM :=
  { getTasksR := fun _ => .ok [], getTaskR := fun _ => .ok c8Task,
    getTaskStoriesR := fun _ => .ok [c8Story1, c8Story2],
    getProjectSectionsR := fun _ => .ok [], getSectionTasksR := fun _ => .ok [],
    getWorkspaceUsersR := .ok [], getMeR := .ok c8User,
    getWorkspaceProjectsR := .ok [] }

/-- C8: on the history `[{old 2024-01-01, new 2024-01-08},
{old 2024-01-08, new null}]` the tool reports `changeCount = 2` and renders
the second change's `newDueDate` as `"Removed"`; and an event counts as a
due-date change exactly when its subtype is `due_date_changed` or both
due-date fields are present and differ. -/
theorem getTaskDueDateChanges_scenario :
    (∀ story : AsanaStory, isDueDateChange story =
      (story.resource_subtype == "due_date_changed" ||
        (optTruthy story.new_due_on && optTruthy story.old_due_on &&
          story.new_due_on != story.old_due_on))) ∧
    jField (getTaskDueDateChanges c8Client "T1") "changeCount"
      = some (.num 2) ∧
    jField (getTaskDueDateChanges c8Client "T1") "changes"
      = some (.arr
          [.obj [("date", .str "2024-01-02T00:00:00.000Z"),
                 ("oldDueDate", .str "2024-01-01"),
                 ("newDueDate", .str "2024-01-08"),
                 ("changedBy", .str "Alice")],
           .obj [("date", .str "2024-01-09T00:00:00.000Z"),
                 ("oldDueDate", .str "2024-01-08"),
                 ("newDueDate", .str "Removed"),
                 ("changedBy", .str "Alice")]]) := by
  refine ⟨fun story => rfl, rfl, rfl⟩

/-! ## Sorting lemmas

JS `Array.prototype.sort` is stable; it is embedded as `List.mergeSort`
with the boolean relation `compare(a,b) <= 0`.  The comparators guard
against absent fields and are therefore not globally transitive; the
congruence lemmas below let them be replaced by well-behaved relations that
agree on the elements actually sorted. -/

theorem merge_congr {α : Type} (le le' : α → α → Bool) :
    ∀ (xs ys : List α), (∀ a ∈ xs, ∀ b ∈ ys, le a b = le' a b) →
      List.merge xs ys le = List.merge xs ys le'
  | [], ys, _ => by simp
  | x :: xs, [], _ => by simp
  | x :: xs, y :: ys, h => by
    rw [List.cons_merge_cons, List.cons_merge_cons,
      h x (List.mem_cons_self x xs) y (List.mem_cons_self y ys)]
    by_cases hxy : le' x y = true
    · rw [if_pos hxy, if_pos hxy]
      exact congrArg (x :: ·)
        (merge_congr le le' xs (y :: ys)
          (fun a ha b hb => h a (List.mem_cons_of_mem x ha) b hb))
    · rw [if_neg hxy, if_neg hxy]
      exact congrArg (y :: ·)
        (merge_congr le le' (x :: xs) ys
          (fun a ha b hb => h a ha b (List.mem_cons_of_mem y hb)))
  termination_by xs ys => xs.length + ys.length

theorem mergeSort_congr {α : Type} (le le' : α → α → Bool) :
    ∀ (l : List α), (∀ a ∈ l, ∀ b ∈ l, le a b = le' a b) →
      l.mergeSort le = l.mergeSort le'
  | [], _ => by simp
  | [a], _ => by simp
  | a :: b :: xs, h => by
    have hl1 : (List.splitInTwo ⟨a :: b :: xs, rfl⟩).1.1.length < xs.length + 1 + 1 := by
      simp [List.splitInTwo_fst]; omega
    have hl2 : (List.splitInTwo ⟨a :: b :: xs, rfl⟩).2.1.length < xs.length + 1 + 1 := by
      simp [List.splitInTwo_snd]; omega
    have hfst : ∀ x ∈ (List.splitInTwo ⟨a :: b :: xs, rfl⟩).1.1, x ∈ a :: b :: xs := by
      intro x hx
      rw [List.splitInTwo_fst] at hx
      exact List.mem_of_mem_take hx
    have hsnd : ∀ x ∈ (List.splitInTwo ⟨a :: b :: xs, rfl⟩).2.1, x ∈ a :: b :: xs := by
      intro x hx
      rw [List.splitInTwo_snd] at hx
      exact List.mem_of_mem_drop hx
    rw [List.mergeSort, List.mergeSort]
    rw [mergeSort_congr le le' (List.splitInTwo ⟨a :: b :: xs, rfl⟩).1.1
        (fun p hp q hq => h p (hfst p hp) q (hfst q hq)),
      mergeSort_congr le le' (List.splitInTwo ⟨a :: b :: xs, rfl⟩).2.1
        (fun p hp q hq => h p (hsnd p hp) q (hsnd q hq))]
    exact merge_congr le le' _ _ (fun p hp q hq =>
      h p (hfst p (List.mem_mergeSort.mp hp)) q (hsnd q (List.mem_mergeSort.mp hq)))
  termination_by l => l.length

/-- On tasks passing the overdue filter, the sort comparator agrees with
plain string comparison of the due dates. -/
theorem dueLe_agrees (todayStr : String) (a b : AsanaTask)
    (ha : overduePred todayStr a = true) (hb : overduePred todayStr b = true) :
    dueLe a b = decide (a.due_on.getD "" ≤ b.due_on.getD "") := by
  unfold overduePred at ha hb
  unfold dueLe
  cases hda : a.due_on with
  | none => rw [hda] at ha; simp at ha
  | some da =>
    cases hdb : b.due_on with
    | none => rw [hdb] at hb; simp at hb
    | some db =>
      rw [hda] at ha
      rw [hdb] at hb
      simp only [Bool.and_eq_true, Bool.not_eq_true'] at ha hb
      simp [optTruthy, ha.2.1, hb.2.1]

/-- C4: `get_overdue_tasks` includes a task iff it is in the fetched set,
not completed, and its due date is strictly before today's date string; the
result is sorted ascending by due date.  The hypothesis excludes the
unrealistic empty-string due date (JS truthiness would drop it). -/
theorem getOverdueTasks_filter_sort_spec
    (todayStr : String) (tasks : List AsanaTask)
    (hclean : ∀ t ∈ tasks, t.due_on ≠ some "") :
    (∀ t, t ∈ overdueSorted todayStr tasks ↔
      (t ∈ tasks ∧ t.completed = false ∧
        ∃ d, t.due_on = some d ∧ d < todayStr)) ∧
    (overdueSorted todayStr tasks).Pairwise
      (fun a b => a.due_on.getD "" ≤ b.due_on.getD "") := by
  constructor
  · intro t
    unfold overdueSorted
    rw [List.mem_mergeSort, List.mem_filter]
    constructor
    · rintro ⟨htmem, hpred⟩
      unfold overduePred at hpred
      cases hd : t.due_on with
      | none => rw [hd] at hpred; simp at hpred
      | some d =>
        rw [hd] at hpred
        simp only [Bool.and_eq_true, Bool.not_eq_true', decide_eq_true_eq] at hpred
        exact ⟨htmem, hpred.1, d, rfl, hpred.2.2⟩
    · rintro ⟨htmem, hcomp, d, hd, hlt⟩
      refine ⟨htmem, ?_⟩
      unfold overduePred
      rw [hd, hcomp]
      have hne : d ≠ "" := by
        intro hcon
        exact hclean t htmem (hcon ▸ hd)
      have : d.isEmpty = false := by
        rw [← Bool.not_eq_true, String.isEmpty_iff]
        exact hne
      simp [this, hlt]
  · unfold overdueSorted
    rw [mergeSort_congr dueLe
        (fun a b => decide (a.due_on.getD "" ≤ b.due_on.getD ""))
        (tasks.filter (overduePred todayStr))
        (fun a ha b hb =>
          dueLe_agrees todayStr a b (List.of_mem_filter ha) (List.of_mem_filter hb))]
    have hs := @List.sorted_mergeSort AsanaTask
      (fun a b => decide (a.due_on.getD "" ≤ b.due_on.getD ""))
      (fun a b c hab hbc => by
        simp only [decide_eq_true_eq] at hab hbc ⊢
        exact le_trans hab hbc)
      (fun a b => by
        simp only [Bool.or_eq_true, decide_eq_true_eq]
        exact le_total _ _)
      (tasks.filter (overduePred todayStr))
    exact hs.imp (fun h => by simpa using h)

/-- Concrete task with due date `2024-02-01`. -/
def c4TaskB : AsanaTask :=
  { gid := "T2", name := "B", notes := none, completed := false,
    completed_at := none, created_at := "", modified_at := "",
    due_on := some "2024-02-01", due_at := none, assignee := none,
    projects := [], memberships := [] }

/-- Concrete task with due date `2024-01-15`. -/
def c4TaskC : AsanaTask :=
  { gid := "T3", name := "C", notes := none, completed := false,
    completed_at := none, created_at := "", modified_at := "",
    due_on := some "2024-01-15", due_at := none, assignee := none,
    projects := [], memberships := [] }

theorem getOverdueTasks_filter_sort_spec_witness :
    (∀ t ∈ [c4TaskB, c4TaskC], t.due_on ≠ some "") ∧
    ((∀ t, t ∈ overdueSorted "2024-03-01" [c4TaskB, c4TaskC] ↔
      (t ∈ [c4TaskB, c4TaskC] ∧ t.completed = false ∧
        ∃ d, t.due_on = some d ∧ d < "2024-03-01")) ∧
    (overdueSorted "2024-03-01" [c4TaskB, c4TaskC]).Pairwise
      (fun a b => a.due_on.getD "" ≤ b.due_on.getD "")) :=
  ⟨by decide,
   getOverdueTasks_filter_sort_spec "2024-03-01" [c4TaskB, c4TaskC] (by decide)⟩

/-- The empty string is the bottom of the lexicographic order. -/
theorem eq_empty_of_le_empty {s : String} (h : s ≤ "") : s = "" :=
  le_antisymm h (by
    cases s with
    | mk data =>
      cases data with
      | nil => exact le_refl _
      | cons c cs =>
        exact le_of_lt (String.lt_iff_toList_lt.mpr List.Lex.nil))

/-- C5: `get_tasks_completed_today` keeps a task iff its completed flag is
set and its completion timestamp is at or after the start of the current
local day, re-checked locally on whatever set the pre-filtered fetch
returned.  The hypothesis says the start-of-day ISO timestamp is a
non-empty string. -/
theorem getTasksCompletedToday_filter_spec
    (todayStart : String) (tasks : List AsanaTask)
    (hstart : todayStart ≠ "") :
    ∀ t, t ∈ completedTodayList todayStart tasks ↔
      (t ∈ tasks ∧ t.completed = true ∧
        ∃ ca, t.completed_at = some ca ∧ todayStart ≤ ca) := by
  intro t
  unfold completedTodayList
  rw [List.mem_filter]
  unfold completedTodayPred
  constructor
  · rintro ⟨htmem, hpred⟩
    cases hca : t.completed_at with
    | none => rw [hca] at hpred; simp at hpred
    | some ca =>
      rw [hca] at hpred
      simp only [Bool.and_eq_true, decide_eq_true_eq] at hpred
      exact ⟨htmem, hpred.1, ca, rfl, hpred.2.2⟩
  · rintro ⟨htmem, hcomp, ca, hca, hle⟩
    refine ⟨htmem, ?_⟩
    rw [hca, hcomp]
    have hne : ca.isEmpty = false := by
      rw [← Bool.not_eq_true, String.isEmpty_iff]
      intro hcon
      exact hstart (eq_empty_of_le_empty (hcon ▸ hle))
    simp [hne, hle]

/-- Concrete completed task for the C5 witness. -/
def c5Task : AsanaTask :=
  { gid := "T5", name := "Done", notes := none, completed := true,
    completed_at := some "2024-03-01T10:00:00.000Z",
    created_at := "", modified_at := "", due_on := none, due_at := none,
    assignee := none, projects := [], memberships := [] }

theorem getTasksCompletedToday_filter_spec_witness :
    ("2024-03-01T00:00:00.000Z" : String) ≠ "" ∧
    (∀ t, t ∈ completedTodayList "2024-03-01T00:00:00.000Z" [c5Task] ↔
      (t ∈ [c5Task] ∧ t.completed = true ∧
        ∃ ca, t.completed_at = some ca ∧ "2024-03-01T00:00:00.000Z" ≤ ca)) :=
  ⟨by decide,
   getTasksCompletedToday_filter_spec "2024-03-01T00:00:00.000Z" [c5Task]
     (by decide)⟩

/-! ## Association-list lemmas for the workload grouping -/

theorem findVal?_updateFirst_eq {β : Type} (m : List (String × β)) (k : String)
    (f : β → β) : findVal? (updateFirst m k f) k = (findVal? m k).map f := by
  induction m with
  | nil => simp [findVal?, updateFirst]
  | cons p rest ih =>
    by_cases h : (p.1 == k) = true
    · simp [findVal?, updateFirst, h]
    · simp only [Bool.not_eq_true] at h
      simp [findVal?, updateFirst, h, ih]

theorem findVal?_updateFirst_ne {β : Type} (m : List (String × β)) (k k' : String)
    (f : β → β) (hne : k' ≠ k) :
    findVal? (updateFirst m k f) k' = findVal? m k' := by
  induction m with
  | nil => simp [findVal?, updateFirst]
  | cons p rest ih =>
    by_cases h : (p.1 == k) = true
    · have h2 : (p.1 == k') = false := by
        rw [beq_iff_eq] at h
        rw [beq_eq_false_iff_ne, h]
        exact fun hcon => hne hcon.symm
      simp [findVal?, updateFirst, h, h2]
    · simp only [Bool.not_eq_true] at h
      by_cases h3 : (p.1 == k') = true
      · simp [findVal?, updateFirst, h, h3]
      · simp only [Bool.not_eq_true] at h3
        simp [findVal?, updateFirst, h, h3, ih]

theorem findVal?_append {β : Type} (m m' : List (String × β)) (k : String) :
    findVal? (m ++ m') k =
      (match findVal? m k with
       | some v => some v
       | none => findVal? m' k) := by
  induction m with
  | nil => simp [findVal?]
  | cons p rest ih =>
    by_cases h : (p.1 == k) = true
    · simp [findVal?, h]
    · simp only [Bool.not_eq_true] at h
      simp [findVal?, h, ih]

theorem containsKey_eq_isSome {β : Type} (m : List (String × β)) (k : String) :
    containsKey m k = (findVal? m k).isSome := by
  induction m with
  | nil => simp [containsKey, findVal?]
  | cons p rest ih =>
    by_cases h : (p.1 == k) = true
    · simp [containsKey, findVal?, h]
    · simp only [Bool.not_eq_true] at h
      simp [containsKey, findVal?, h]
      simpa [containsKey] using ih

theorem findVal?_mem {β : Type} (m : List (String × β)) (k : String) (v : β)
    (h : findVal? m k = some v) : (k, v) ∈ m := by
  induction m with
  | nil => simp [findVal?] at h
  | cons p rest ih =>
    by_cases hk : (p.1 == k) = true
    · rw [findVal?, if_pos hk] at h
      rw [beq_iff_eq] at hk
      cases p with
      | mk k' v' =>
        simp at hk h
        simp [hk, h]
    · simp only [Bool.not_eq_true] at hk
      rw [findVal?, if_neg (by simp [hk])] at h
      exact List.mem_cons_of_mem p (ih h)

/-- `bumpWorkload` increments the total tally by exactly one. -/
theorem bumpWorkload_totalTasks (todayStr : String) (task : AsanaTask)
    (w : UserWorkload) :
    (bumpWorkload todayStr task w).totalTasks = w.totalTasks + 1 := by
  unfold bumpWorkload
  split <;> split <;> simp_all <;> split <;> simp_all

/-- `bumpWorkload` leaves the completed tally unchanged for an incomplete
task. -/
theorem bumpWorkload_completedTasks (todayStr : String) (task : AsanaTask)
    (w : UserWorkload) (h : task.completed = false) :
    (bumpWorkload todayStr task w).completedTasks = w.completedTasks := by
  unfold bumpWorkload
  simp only [h]
  split <;> simp_all <;> split <;> simp_all

/-- `bumpWorkload` does not change the bucket's user. -/
theorem bumpWorkload_user (todayStr : String) (task : AsanaTask)
    (w : UserWorkload) : (bumpWorkload todayStr task w).user = w.user := by
  unfold bumpWorkload
  split <;> split <;> simp_all <;> split <;> simp_all

/-- Sum of the total tallies over all buckets. -/
def sumTotals (m : List (String × UserWorkload)) : Nat :=
  (m.map (fun p => p.2.totalTasks)).sum

/-- `wInc ic t`: the grouping loop of `get_team_workload` processes `t`
(i.e. the `if (!includeCompleted && task.completed) return;` guard does
not fire). -/
def wInc (includeCompleted : Bool) (t : AsanaTask) : Bool :=
  !(!includeCompleted && t.completed)

theorem sumTotals_append (m : List (String × UserWorkload))
    (k : String) (v : UserWorkload) :
    sumTotals (m ++ [(k, v)]) = sumTotals m + v.totalTasks := by
  simp [sumTotals]

theorem sumTotals_updateFirst (m : List (String × UserWorkload)) (k : String)
    (f : UserWorkload → UserWorkload)
    (hf : ∀ w, (f w).totalTasks = w.totalTasks + 1)
    (hmem : containsKey m k = true) :
    sumTotals (updateFirst m k f) = sumTotals m + 1 := by
  induction m with
  | nil => simp [containsKey] at hmem
  | cons p rest ih =>
    by_cases h : (p.1 == k) = true
    · simp [updateFirst, h, sumTotals, hf]
      omega
    · simp only [Bool.not_eq_true] at h
      have hrest : containsKey rest k = true := by
        simpa [containsKey, h] using hmem
      simp [updateFirst, h, sumTotals] at ih ⊢
      rw [ih hrest]
      omega

/-- One grouping step adds one to the bucket totals iff the task is
processed. -/
theorem workloadStep_sumTotals (includeCompleted : Bool) (todayStr : String)
    (m : List (String × UserWorkload)) (task : AsanaTask) :
    sumTotals (workloadStep includeCompleted todayStr m task)
      = sumTotals m + (if wInc includeCompleted task then 1 else 0) := by
  unfold workloadStep wInc
  by_cases hskip : (!includeCompleted && task.completed) = true
  · simp [hskip]
  · simp only [Bool.not_eq_true] at hskip
    simp only [hskip, Bool.false_eq_true, if_false, if_true, Bool.not_false]
    by_cases hck : containsKey m (workloadKey task) = true
    · simp only [hck, if_true]
      rw [sumTotals_updateFirst _ _ _
        (fun w => bumpWorkload_totalTasks todayStr task w) hck]
    · simp only [Bool.not_eq_true] at hck
      simp only [hck, Bool.false_eq_true, if_false]
      rw [sumTotals_updateFirst _ _ _
        (fun w => bumpWorkload_totalTasks todayStr task w)
        (by
          rw [containsKey_eq_isSome, findVal?_append]
          rw [containsKey_eq_isSome] at hck
          cases hfv : findVal? m (workloadKey task) with
          | none => simp [findVal?]
          | some v => rw [hfv] at hck; simp at hck)]
      rw [sumTotals_append]
      simp

/-- Folding the grouping loop adds one per processed task. -/
theorem foldl_workloadStep_sumTotals (includeCompleted : Bool)
    (todayStr : String) :
    ∀ (tasks : List AsanaTask) (m : List (String × UserWorkload)),
      sumTotals (tasks.foldl (workloadStep includeCompleted todayStr) m)
        = sumTotals m + (tasks.filter (wInc includeCompleted)).length
  | [], m => by simp
  | t :: rest, m => by
    rw [List.foldl_cons, foldl_workloadStep_sumTotals includeCompleted todayStr rest,
      workloadStep_sumTotals]
    by_cases h : wInc includeCompleted t = true
    · simp [List.filter, h]
      omega
    · simp only [Bool.not_eq_true] at h
      simp [List.filter, h]

/-- The total tally of the bucket keyed `k` (0 when absent). -/
def bucketTotal (m : List (String × UserWorkload)) (k : String) : Nat :=
  match findVal? m k with
  | some w => w.totalTasks
  | none => 0

/-- One grouping step adds one to the bucket keyed by the task's assignee
(and touches no other bucket). -/
theorem workloadStep_bucketTotal (includeCompleted : Bool) (todayStr : String)
    (m : List (String × UserWorkload)) (task : AsanaTask) (k : String) :
    bucketTotal (workloadStep includeCompleted todayStr m task) k
      = bucketTotal m k +
        (if wInc includeCompleted task && (workloadKey task == k) then 1 else 0) := by
  unfold workloadStep wInc
  by_cases hskip : (!includeCompleted && task.completed) = true
  · simp [hskip]
  · simp only [Bool.not_eq_true] at hskip
    simp only [hskip, Bool.false_eq_true, if_false, Bool.not_false, Bool.true_and]
    by_cases hkey : (workloadKey task == k) = true
    · rw [beq_iff_eq] at hkey
      subst hkey
      by_cases hck : containsKey m (workloadKey task) = true
      · simp only [hck, if_true]
        unfold bucketTotal
        rw [findVal?_updateFirst_eq]
        rw [containsKey_eq_isSome] at hck
        cases hfv : findVal? m (workloadKey task) with
        | none => rw [hfv] at hck; simp at hck
        | some w => simp [hfv, bumpWorkload_totalTasks]
      · simp only [Bool.not_eq_true] at hck
        simp only [hck, Bool.false_eq_true, if_false]
        unfold bucketTotal
        rw [findVal?_updateFirst_eq, findVal?_append]
        rw [containsKey_eq_isSome] at hck
        cases hfv : findVal? m (workloadKey task) with
        | none => simp [hfv, findVal?, bumpWorkload_totalTasks]
        | some w => rw [hfv] at hck; simp at hck
    · simp only [Bool.not_eq_true] at hkey
      have hne : workloadKey task ≠ k := by
        intro hcon
        rw [hcon] at hkey
        simp at hkey
      simp only [hkey, if_false]
      by_cases hck : containsKey m (workloadKey task) = true
      · simp only [hck, if_true]
        unfold bucketTotal
        rw [findVal?_updateFirst_ne _ _ _ _ (fun hcon => hne hcon.symm)]
        simp
      · simp only [Bool.not_eq_true] at hck
        simp only [hck, Bool.false_eq_true, if_false]
        unfold bucketTotal
        rw [findVal?_updateFirst_ne _ _ _ _ (fun hcon => hne hcon.symm),
          findVal?_append]
        cases hfv : findVal? m k with
        | none =>
          simp only [hfv]
          have : (workloadKey task == k) = false := by
            rw [beq_eq_false_iff_ne]
            exact hne
          simp [findVal?, this]
        | some w => simp [hfv]

/-- Folding the grouping loop: each bucket's total counts exactly the
processed tasks keyed to it. -/
theorem foldl_workloadStep_bucketTotal (includeCompleted : Bool)
    (todayStr : String) (k : String) :
    ∀ (tasks : List AsanaTask) (m : List (String × UserWorkload)),
      bucketTotal (tasks.foldl (workloadStep includeCompleted todayStr) m) k
        = bucketTotal m k +
          (tasks.filter
            (fun t => wInc includeCompleted t && (workloadKey t == k))).length
  | [], m => by simp
  | t :: rest, m => by
    rw [List.foldl_cons,
      foldl_workloadStep_bucketTotal includeCompleted todayStr k rest,
      workloadStep_bucketTotal]
    by_cases h : (wInc includeCompleted t && (workloadKey t == k)) = true
    · simp [List.filter, h]
      omega
    · simp only [Bool.not_eq_true] at h
      simp [List.filter, h]

theorem updateFirst_forall {β : Type} (P : String × β → Prop) :
    ∀ (m : List (String × β)) (k : String) (f : β → β),
      (∀ p ∈ m, P p) → (∀ v, P (k, v) → P (k, f v)) →
      ∀ p ∈ updateFirst m k f, P p
  | [], _, _, _, _ => by simp [updateFirst]
  | q :: rest, k, f, hm, hf => by
    by_cases h : (q.1 == k) = true
    · rw [updateFirst, if_pos h]
      intro p hp
      rcases List.mem_cons.mp hp with hp | hp
      · rw [beq_iff_eq] at h
        subst hp
        have hq : P (k, q.2) := by
          have := hm q (List.mem_cons_self q rest)
          rwa [← h]
        have := hf q.2 hq
        rwa [← h] at this
      · exact hm p (List.mem_cons_of_mem q hp)
    · rw [updateFirst, if_neg (by simp_all)]
      intro p hp
      rcases List.mem_cons.mp hp with hp | hp
      · subst hp
        exact hm q (List.mem_cons_self q rest)
      · exact updateFirst_forall P rest k f
          (fun r hr => hm r (List.mem_cons_of_mem q hr)) hf p hp

/-- The fresh bucket created for a task (weekly-planning.ts:128-135). -/
def initWorkload (task : AsanaTask) : UserWorkload :=
  { user := task.assignee.getD { gid := "unassigned", name := "Unassigned", email := none },
    totalTasks := 0, completedTasks := 0, overdueTasks := 0, upcomingTasks := 0 }

/-- Every bucket of the grouping fold satisfies an invariant that holds on
creation and is preserved by the tally bump. -/
theorem foldl_workloadStep_entries (includeCompleted : Bool) (todayStr : String)
    (P : String → UserWorkload → Prop) :
    ∀ (tasks : List AsanaTask) (m : List (String × UserWorkload)),
      (∀ t ∈ tasks, wInc includeCompleted t = true →
        ∀ k w, P k w → P k (bumpWorkload todayStr t w)) →
      (∀ t ∈ tasks, wInc includeCompleted t = true →
        P (workloadKey t) (initWorkload t)) →
      (∀ p ∈ m, P p.1 p.2) →
      ∀ p ∈ tasks.foldl (workloadStep includeCompleted todayStr) m, P p.1 p.2
  | [], m, _, _, hm => by simpa using hm
  | t :: rest, m, hbump, hinit, hm => by
    rw [List.foldl_cons]
    refine foldl_workloadStep_entries includeCompleted todayStr P rest _
      (fun u hu => hbump u (List.mem_cons_of_mem t hu))
      (fun u hu => hinit u (List.mem_cons_of_mem t hu)) ?_
    unfold workloadStep
    by_cases hskip : (!includeCompleted && t.completed) = true
    · simpa [hskip] using hm
    · have hskip2 : (!includeCompleted && t.completed) = false := by
        revert hskip
        cases (!includeCompleted && t.completed) <;> simp
      have hw : wInc includeCompleted t = true := by
        unfold wInc
        rw [hskip2]
        rfl
      simp only [hskip, Bool.false_eq_true, if_false]
      by_cases hck : containsKey m (workloadKey t) = true
      · simp only [hck, if_true]
        exact updateFirst_forall (fun p => P p.1 p.2) m (workloadKey t) _
          hm (fun v hv => hbump t (List.mem_cons_self t rest) hw _ v hv)
      · simp only [Bool.not_eq_true] at hck
        simp only [hck, Bool.false_eq_true, if_false]
        refine updateFirst_forall (fun p => P p.1 p.2) _ (workloadKey t) _
          ?_ (fun v hv => hbump t (List.mem_cons_self t rest) hw _ v hv)
        intro p hp
        rcases List.mem_append.mp hp with hp | hp
        · exact hm p hp
        · have : p = (workloadKey t, initWorkload t) := by
            simpa [initWorkload] using hp
          rw [this]
          exact hinit t (List.mem_cons_self t rest) hw

/-- `Math.round((0 / total) * 100) = 0`. -/
theorem roundRate_zero (total : Nat) (h : 0 < total) : roundRate 0 total = 0 := by
  unfold roundRate
  rw [Nat.mul_zero, Nat.zero_add]
  exact Nat.div_eq_of_lt (by omega)

/-- C10: with `includeCompleted = false` every bucket reports
`completedTasks = 0` and `completionRate = 0`, because completed tasks are
skipped before bucketing. -/
theorem getTeamWorkload_excludeCompleted_zero_rates
    (todayStr : String) (tasks : List AsanaTask) :
    ∀ s ∈ teamWorkloadSummary false todayStr tasks,
      s.completedTasks = 0 ∧ s.completionRate = 0 := by
  intro s hs
  unfold teamWorkloadSummary teamWorkloadArray at hs
  rcases List.mem_map.mp hs with ⟨w, hw, rfl⟩
  rw [List.mem_mergeSort] at hw
  rcases List.mem_map.mp hw with ⟨p, hp, rfl⟩
  have hz : p.2.completedTasks = 0 := by
    exact foldl_workloadStep_entries false todayStr
      (fun _ w => w.completedTasks = 0) tasks []
      (fun t ht hwinc k w hPw => by
        have hc : t.completed = false := by
          unfold wInc at hwinc
          simpa using hwinc
        show (bumpWorkload todayStr t w).completedTasks = 0
        rw [bumpWorkload_completedTasks _ _ _ hc]
        exact hPw)
      (fun t ht hwinc => rfl)
      (by simp)
      p hp
  constructor
  · simpa [summarizeWorkload] using hz
  · unfold summarizeWorkload
    simp only [hz]
    by_cases ht : 0 < p.2.totalTasks
    · simp [ht, roundRate_zero _ ht]
    · simp [ht]

/-- A concrete assignee for the C10 witness. -/
def c10User : AsanaUser := { gid := "U7", name := "Bob", email := none }

/-- A concrete incomplete task assigned to `Bob`. -/
def c10Task : AsanaTask :=
  { gid := "T7", name := "Open", notes := none, completed := false,
    completed_at := none, created_at := "", modified_at := "",
    due_on := none, due_at := none, assignee := some c10User,
    projects := [], memberships := [] }

/-- The single bucket the C10 witness input produces. -/
def c10Summary : WorkloadSummary :=
  { user := "Bob", userGid := "U7", totalTasks := 1, completedTasks := 0,
    overdueTasks := 0, upcomingTasks := 0, completionRate := 0 }

theorem getTeamWorkload_excludeCompleted_zero_rates_witness :
    c10Summary ∈ teamWorkloadSummary false "2099-01-01" [c10Task] ∧
    (c10Summary.completedTasks = 0 ∧ c10Summary.completionRate = 0) := by
  have hmem : c10Summary ∈ teamWorkloadSummary false "2099-01-01" [c10Task] := by
    unfold teamWorkloadSummary teamWorkloadArray
    simp [workloadStep, containsKey, updateFirst, bumpWorkload, workloadKey,
      initWorkload, optTruthy, summarizeWorkload, roundRate, c10Task, c10User,
      c10Summary]
  exact ⟨hmem,
    getTeamWorkload_excludeCompleted_zero_rates "2099-01-01" [c10Task]
      c10Summary hmem⟩

/-- The workload comparator is transitive. -/
theorem wLe_trans (a b c : UserWorkload) (hab : wLe a b) (hbc : wLe b c) :
    wLe a c := by
  unfold wLe at hab hbc ⊢
  simp only [decide_eq_true_eq] at hab hbc ⊢
  omega

/-- The workload comparator is total. -/
theorem wLe_total (a b : UserWorkload) : wLe a b || wLe b a := by
  unfold wLe
  simp only [Bool.or_eq_true, decide_eq_true_eq]
  omega

/-- C6: for `includeCompleted = false`, per-user totals sum to the number
of incomplete tasks; each bucket's completion rate is
`round(completed/total*100)` with `0` for an empty bucket; buckets are
sorted descending by total; and unassigned tasks are grouped under the
synthetic `unassigned` bucket.  The hypothesis states that real assignees
have a non-empty gid different from the synthetic id. -/
theorem getTeamWorkload_spec (todayStr : String) (tasks : List AsanaTask)
    (hgid : ∀ t ∈ tasks, ∀ u, t.assignee = some u →
      u.gid ≠ "" ∧ u.gid ≠ "unassigned") :
    (((teamWorkloadSummary false todayStr tasks).map
        (fun s => s.totalTasks)).sum
      = (tasks.filter (fun t => !t.completed)).length) ∧
    (∀ s ∈ teamWorkloadSummary false todayStr tasks,
      s.completionRate =
        if 0 < s.totalTasks then roundRate s.completedTasks s.totalTasks
        else 0) ∧
    ((teamWorkloadSummary false todayStr tasks).Pairwise
      (fun a b => b.totalTasks ≤ a.totalTasks)) ∧
    (0 < (tasks.filter (fun t => !t.completed && t.assignee.isNone)).length →
      ∃ s ∈ teamWorkloadSummary false todayStr tasks,
        s.userGid = "unassigned" ∧
        s.totalTasks
          = (tasks.filter (fun t => !t.completed && t.assignee.isNone)).length) := by
  have hfun : ∀ t : AsanaTask, wInc false t = !t.completed := by
    intro t
    simp [wInc]
  refine ⟨?_, ?_, ?_, ?_⟩
  · unfold teamWorkloadSummary teamWorkloadArray
    rw [List.map_map]
    have h1 : ((((tasks.foldl (workloadStep false todayStr) []).map
        (fun p => p.2)).mergeSort wLe).map
          ((fun s => s.totalTasks) ∘ summarizeWorkload)).sum
        = ((((tasks.foldl (workloadStep false todayStr) []).map
          (fun p => p.2)).mergeSort wLe).map (fun w => w.totalTasks)).sum := rfl
    rw [h1, (List.Perm.map (fun w => w.totalTasks)
        (List.mergeSort_perm _ wLe)).sum_eq, List.map_map]
    have h2 : ((tasks.foldl (workloadStep false todayStr) []).map
        ((fun w => w.totalTasks) ∘ (fun p : String × UserWorkload => p.2))).sum
        = sumTotals (tasks.foldl (workloadStep false todayStr) []) := rfl
    rw [h2, foldl_workloadStep_sumTotals]
    rw [List.filter_congr (fun t _ => hfun t)]
    simp [sumTotals]
  · intro s hs
    unfold teamWorkloadSummary at hs
    rcases List.mem_map.mp hs with ⟨w, hw, rfl⟩
    rfl
  · unfold teamWorkloadSummary teamWorkloadArray
    rw [List.pairwise_map]
    have hs := @List.sorted_mergeSort UserWorkload wLe
      (fun a b c hab hbc => wLe_trans a b c hab hbc)
      (fun a b => wLe_total a b)
      ((tasks.foldl (workloadStep false todayStr) []).map (fun p => p.2))
    refine hs.imp ?_
    intro a b hab
    unfold wLe at hab
    simp only [decide_eq_true_eq] at hab
    show (summarizeWorkload b).totalTasks ≤ (summarizeWorkload a).totalTasks
    unfold summarizeWorkload
    simp only []
    omega
  · intro hpos
    have hkeyfilter : tasks.filter
        (fun t => wInc false t && (workloadKey t == "unassigned"))
        = tasks.filter (fun t => !t.completed && t.assignee.isNone) := by
      refine List.filter_congr ?_
      intro t ht
      cases ha : t.assignee with
      | none => simp [wInc, workloadKey, ha]
      | some u =>
        have hu := hgid t ht u ha
        have hne : u.gid.isEmpty = false := by
          rw [← Bool.not_eq_true, String.isEmpty_iff]
          exact hu.1
        have hbeq : (u.gid == "unassigned") = false := by
          rw [beq_eq_false_iff_ne]
          exact hu.2
        simp [wInc, workloadKey, ha, hne, hbeq]
    have hbt := foldl_workloadStep_bucketTotal false todayStr "unassigned" tasks []
    rw [hkeyfilter] at hbt
    have hzero : bucketTotal ([] : List (String × UserWorkload)) "unassigned" = 0 := rfl
    rw [hzero, Nat.zero_add] at hbt
    cases hfv : findVal? (tasks.foldl (workloadStep false todayStr) []) "unassigned" with
    | none =>
      rw [bucketTotal, hfv] at hbt
      simp at hbt
      omega
    | some w =>
      have hwt : w.totalTasks
          = (tasks.filter (fun t => !t.completed && t.assignee.isNone)).length := by
        rw [bucketTotal, hfv] at hbt
        simpa using hbt
      have hmem := findVal?_mem _ _ _ hfv
      have hgidw : w.user.gid = "unassigned" := by
        have hinv := foldl_workloadStep_entries false todayStr
          (fun k w => w.user.gid = k) tasks []
          (fun t ht hwinc k v hPv => by
            show (bumpWorkload todayStr t v).user.gid = k
            rw [bumpWorkload_user]
            exact hPv)
          (fun t ht hwinc => by
            show (initWorkload t).user.gid = workloadKey t
            unfold initWorkload workloadKey
            cases ha : t.assignee with
            | none => simp
            | some u =>
              have hne : u.gid.isEmpty = false := by
                rw [← Bool.not_eq_true, String.isEmpty_iff]
                exact (hgid t ht u ha).1
              simp [hne])
          (by simp)
          ("unassigned", w) hmem
        exact hinv
      refine ⟨summarizeWorkload w, ?_, ?_, ?_⟩
      · unfold teamWorkloadSummary teamWorkloadArray
        exact List.mem_map.mpr ⟨w, List.mem_mergeSort.mpr
          (List.mem_map.mpr ⟨("unassigned", w), hmem, rfl⟩), rfl⟩
      · show (summarizeWorkload w).userGid = "unassigned"
        unfold summarizeWorkload
        exact hgidw
      · exact hwt

theorem getTeamWorkload_spec_witness :
    (∀ t ∈ [c10Task, c4TaskB], ∀ u, t.assignee = some u →
      u.gid ≠ "" ∧ u.gid ≠ "unassigned") ∧
    ((((teamWorkloadSummary false "2024-03-01" [c10Task, c4TaskB]).map
        (fun s => s.totalTasks)).sum
      = ([c10Task, c4TaskB].filter (fun t => !t.completed)).length) ∧
    (∀ s ∈ teamWorkloadSummary false "2024-03-01" [c10Task, c4TaskB],
      s.completionRate =
        if 0 < s.totalTasks then roundRate s.completedTasks s.totalTasks
        else 0) ∧
    ((teamWorkloadSummary false "2024-03-01" [c10Task, c4TaskB]).Pairwise
      (fun a b => b.totalTasks ≤ a.totalTasks)) ∧
    (0 < ([c10Task, c4TaskB].filter
        (fun t => !t.completed && t.assignee.isNone)).length →
      ∃ s ∈ teamWorkloadSummary false "2024-03-01" [c10Task, c4TaskB],
        s.userGid = "unassigned" ∧
        s.totalTasks = ([c10Task, c4TaskB].filter
          (fun t => !t.completed && t.assignee.isNone)).length)) := by
  have hgid : ∀ t ∈ [c10Task, c4TaskB], ∀ u, t.assignee = some u →
      u.gid ≠ "" ∧ u.gid ≠ "unassigned" := by
    intro t ht u hu
    fin_cases ht <;> simp_all [c10Task, c10User, c4TaskB] <;>
      (rw [← hu]; exact ⟨by decide, by decide⟩)
  exact ⟨hgid, getTeamWorkload_spec "2024-03-01" [c10Task, c4TaskB] hgid⟩

/-- The change-count comparator is transitive. -/
theorem changeLe_trans (a b c : DueDateChange) (hab : changeLe a b)
    (hbc : changeLe b c) : changeLe a c := by
  unfold changeLe at hab hbc ⊢
  simp only [decide_eq_true_eq] at hab hbc ⊢
  omega

/-- The change-count comparator is total. -/
theorem changeLe_total (a b : DueDateChange) : changeLe a b || changeLe b a := by
  unfold changeLe
  simp only [Bool.or_eq_true, decide_eq_true_eq]
  omega

/-- A task whose history fetch fails is skipped; the scan result is the
same as the scan over only the tasks whose fetch succeeds. -/
theorem postponedScan_skips_failures (c : AsanaClientM) :
    ∀ tasks : List AsanaTask,
      postponedScan c tasks
        = postponedScan c
            (tasks.filter (fun t => (c.getTaskStoriesR t.gid).isOk))
  | [] => rfl
  | t :: rest => by
    rw [List.filter_cons]
    cases hf : c.getTaskStoriesR t.gid with
    | error e =>
      rw [postponedScan]
      simp only [hf, Except.isOk, Except.toBool, Bool.false_eq_true, if_false]
      exact postponedScan_skips_failures c rest
    | ok stories =>
      rw [postponedScan]
      simp only [hf, Except.isOk, Except.toBool, if_true]
      rw [postponedScan]
      simp only [hf]
      by_cases hde : (stories.filter isDueDateChange).isEmpty = true
      · simp only [hde, if_true]
        exact postponedScan_skips_failures c rest
      · simp only [Bool.not_eq_true] at hde
        simp only [hde, Bool.false_eq_true, if_false]
        rw [postponedScan_skips_failures c rest]
        rfl

/-- C7: the returned list has length at most `limit` and is sorted
descending by change count; a single task's failed history fetch only
excludes that task; and the tool never fails once the initial task fetch
succeeded. -/
theorem getMostPostponedTasks_spec (c : AsanaClientM) (limit : Nat)
    (ts : List AsanaTask) (hok : c.getTasksR {} = .ok ts) :
    ((mostPostponedTop c limit ts).length ≤ limit) ∧
    ((mostPostponedTop c limit ts).Pairwise
      (fun a b => b.changeCount ≤ a.changeCount)) ∧
    (postponedScan c (ts.filter postponedPre)
      = postponedScan c ((ts.filter postponedPre).filter
          (fun t => (c.getTaskStoriesR t.gid).isOk))) ∧
    (jHasError (getMostPostponedTasks c limit) = false) := by
  refine ⟨?_, ?_, postponedScan_skips_failures c _, ?_⟩
  · unfold mostPostponedTop
    exact List.length_take_le limit _
  · unfold mostPostponedTop
    have hs := @List.sorted_mergeSort DueDateChange changeLe
      (fun a b c hab hbc => changeLe_trans a b c hab hbc)
      (fun a b => changeLe_total a b)
      (postponedScan c (ts.filter postponedPre))
    have hp := hs.sublist (List.take_sublist limit _)
    refine hp.imp ?_
    intro a b hab
    unfold changeLe at hab
    simp only [decide_eq_true_eq] at hab
    omega
  · unfold getMostPostponedTasks
    rw [hok]
    by_cases h1 : (ts.filter postponedPre).isEmpty = true
    · simp only [h1, if_true]
      rfl
    · simp only [Bool.not_eq_true] at h1
      simp only [h1, Bool.false_eq_true, if_false]
      by_cases h2 : (postponedScan c (ts.filter postponedPre)).isEmpty = true
      · simp only [h2, if_true]
        rfl
      · simp only [Bool.not_eq_true] at h2
        simp only [h2, Bool.false_eq_true, if_false]
        rfl

/-- Concrete due-date-change story for the C7 witness. -/
def c7Story : AsanaStory :=
  { gid := "S7", created_at := "2024-02-01T00:00:00.000Z", created_by := c8User,
    resource_subtype := "due_date_changed", text := none,
    old_due_on := some "2024-02-01", new_due_on := some "2024-02-08",
    old_due_at := none, new_due_at := none }

/-- Incomplete task whose history fetch succeeds. -/
def c7TaskGood : AsanaTask :=
  { gid := "TG", name := "Good", notes := none, completed := false,
    completed_at := none, created_at := "", modified_at := "",
    due_on := some "2024-02-08", due_at := none, assignee := none,
    projects := [], memberships := [] }

/-- Incomplete task whose history fetch fails. -/
def c7TaskBad : AsanaTask :=
  { gid := "TB", name := "Bad", notes := none, completed := false,
    completed_at := none, created_at := "", modified_at := "",
    due_on := some "2024-02-09", due_at := none, assignee := none,
    projects := [], memberships := [] }

/-- Client for the C7 witness: the second task's story fetch rejects. -/
def c7Client : AsanaClientM :=
  { getTasksR := fun _ => .ok [c7TaskGood, c7TaskBad],
    getTaskR := fun _ => .error "not used",
    getTaskStoriesR := fun g => if g == "TB" then .error "boom" else .ok [c7Story],
    getProjectSectionsR := fun _ => .ok [], getSectionTasksR := fun _ => .ok [],
    getWorkspaceUsersR := .ok [], getMeR := .ok c8User,
    getWorkspaceProjectsR := .ok [] }

theorem getMostPostponedTasks_spec_witness :
    c7Client.getTasksR {} = .ok [c7TaskGood, c7TaskBad] ∧
    (((mostPostponedTop c7Client 3 [c7TaskGood, c7TaskBad]).length ≤ 3) ∧
    ((mostPostponedTop c7Client 3 [c7TaskGood, c7TaskBad]).Pairwise
      (fun a b => b.changeCount ≤ a.changeCount)) ∧
    (postponedScan c7Client ([c7TaskGood, c7TaskBad].filter postponedPre)
      = postponedScan c7Client
          (([c7TaskGood, c7TaskBad].filter postponedPre).filter
            (fun t => (c7Client.getTaskStoriesR t.gid).isOk))) ∧
    (jHasError (getMostPostponedTasks c7Client 3) = false)) :=
  ⟨rfl, getMostPostponedTasks_spec c7Client 3 [c7TaskGood, c7TaskBad] rfl⟩

/-- C9 counterexample: with two projects whose names differ only by case,
looking up the second project's name returns the *first* project's
identifier (`find` takes the first case-insensitive match), so the lookup
does not return the queried project's identifier for every project. -/
theorem findProjectByName_duplicate_name_cex :
    ¬ (∀ (ps : List AsanaProject), ∀ P ∈ ps, ∀ q : String,
        jsToLower q = jsToLower P.name →
        (findProjectByNameL ps q).map (fun p => p.gid) = some P.gid) := by
  intro h
  have hc := h [{ gid := "1", name := "Marketing" },
                { gid := "2", name := "MARKETING" }]
    { gid := "2", name := "MARKETING" } (by decide) "marketing" (by decide)
  exact absurd hc (by decide)

/-- The section loop of `get_project_status` succeeds when every
per-section task fetch succeeds. -/
theorem sectionStatusesE_ok (c : AsanaClientM) :
    ∀ secs : List AsanaSection,
      (∀ s ∈ secs, (c.getSectionTasksR s.gid).isOk = true) →
      ∃ sts, sectionStatusesE c secs = .ok sts
  | [], _ => ⟨[], rfl⟩
  | s :: rest, h => by
    cases hf : c.getSectionTasksR s.gid with
    | error e =>
      have := h s (List.mem_cons_self s rest)
      rw [hf] at this
      simp [Except.isOk, Except.toBool] at this
    | ok tasks =>
      rcases sectionStatusesE_ok c rest
        (fun u hu => h u (List.mem_cons_of_mem s hu)) with ⟨sts, hsts⟩
      exact ⟨_, by rw [sectionStatusesE, hf, hsts]⟩

/-- C9 amended: when case-insensitively distinct names are assumed, the
lookup resolves a query equal to `P`'s name up to case to `P` itself, and
`get_project_status` (which resolves through the same
`findProjectByName`) reports that same project identifier and name. -/
theorem findProjectByName_projectStatus_agree
    (ps : List AsanaProject) (P : AsanaProject) (q : String)
    (huniq : ps.Pairwise (fun a b => jsToLower a.name ≠ jsToLower b.name))
    (hP : P ∈ ps) (hq : jsToLower q = jsToLower P.name)
    (c : AsanaClientM) (secs : List AsanaSection)
    (hcp : c.getWorkspaceProjectsR = .ok ps)
    (hcs : c.getProjectSectionsR P.gid = .ok secs)
    (hsecs : ∀ s ∈ secs, (c.getSectionTasksR s.gid).isOk = true) :
    findProjectByNameL ps q = some P ∧
    jField (getProjectStatus c q) "projectGid" = some (.str P.gid) ∧
    jField (getProjectStatus c q) "projectName" = some (.str P.name) := by
  have hfind : findProjectByNameL ps q = some P := by
    clear hcp
    induction ps with
    | nil => cases hP
    | cons p rest ih =>
      unfold findProjectByNameL
      rcases List.mem_cons.mp hP with rfl | hPrest
      · exact List.find?_cons_of_pos rest (by rw [beq_iff_eq, hq])
      · have hneg : ¬ ((jsToLower p.name == jsToLower q) = true) := by
          rw [beq_iff_eq]
          intro hcon
          exact (List.pairwise_cons.mp huniq).1 P hPrest (by rw [hcon, hq])
        rw [List.find?_cons_of_neg rest hneg]
        exact ih (List.pairwise_cons.mp huniq).2 hPrest
  have hfpn : c.findProjectByName q = .ok (some P) := by
    unfold AsanaClientM.findProjectByName
    rw [hcp]
    show Except.ok (findProjectByNameL ps q) = Except.ok (some P)
    rw [hfind]
  rcases sectionStatusesE_ok c secs hsecs with ⟨sts, hsts⟩
  refine ⟨hfind, ?_, ?_⟩
  · unfold getProjectStatus
    rw [hfpn]
    simp only []
    rw [hcs]
    simp only []
    rw [hsts]
    rfl
  · unfold getProjectStatus
    rw [hfpn]
    simp only []
    rw [hcs]
    simp only []
    rw [hsts]
    rfl

/-- Client for the C9 witness. -/
def c9Client : AsanaClientM :=
  { getTasksR := fun _ => .ok [], getTaskR := fun _ => .error "not used",
    getTaskStoriesR := fun _ => .ok [],
    getProjectSectionsR := fun _ => .ok [],
    getSectionTasksR := fun _ => .ok [],
    getWorkspaceUsersR := .ok [], getMeR := .error "not used",
    getWorkspaceProjectsR := .ok [{ gid := "10", name := "Marketing" }] }

theorem findProjectByName_projectStatus_agree_witness :
    ([{ gid := "10", name := "Marketing" }] : List AsanaProject).Pairwise
      (fun a b => jsToLower a.name ≠ jsToLower b.name) ∧
    ({ gid := "10", name := "Marketing" } : AsanaProject)
      ∈ ([{ gid := "10", name := "Marketing" }] : List AsanaProject) ∧
    jsToLower "marketing"
      = jsToLower ({ gid := "10", name := "Marketing" } : AsanaProject).name ∧
    (findProjectByNameL [{ gid := "10", name := "Marketing" }] "marketing"
      = some { gid := "10", name := "Marketing" } ∧
    jField (getProjectStatus c9Client "marketing") "projectGid"
      = some (.str "10") ∧
    jField (getProjectStatus c9Client "marketing") "projectName"
      = some (.str "Marketing")) :=
  ⟨by decide, by decide, by decide,
   findProjectByName_projectStatus_agree
     [{ gid := "10", name := "Marketing" }] { gid := "10", name := "Marketing" }
     "marketing" (by decide) (by decide) (by decide) c9Client []
     rfl rfl (by intro s hs; cases hs)⟩

/-! ## C3: error envelopes -/

/-- A client whose every SDK call rejects with message `e`. -/
def failClient (e : String) : AsanaClientM :=
  { getTasksR := fun _ => .error e, getTaskR := fun _ => .error e,
    getTaskStoriesR := fun _ => .error e,
    getProjectSectionsR := fun _ => .error e,
    getSectionTasksR := fun _ => .error e,
    getWorkspaceUsersR := .error e, getMeR := .error e,
    getWorkspaceProjectsR := .error e }

/-- Project/section fixtures for the multi-call error stages. -/
def c3Proj : AsanaProject := { gid := "1", name := "Marketing" }

def c3Sect : AsanaSection := { gid := "SEC1", name := "Backlog", project := none }

/-- Projects resolve but the section fetch rejects. -/
def sectionsFailClient (e : String) : AsanaClientM :=
  { failClient e with getWorkspaceProjectsR := .ok [c3Proj] }

/-- Projects and sections resolve but a section's task fetch rejects. -/
def sectionTasksFailClient (e : String) : AsanaClientM :=
  { failClient e with
    getWorkspaceProjectsR := .ok [c3Proj]
    getProjectSectionsR := fun _ => .ok [c3Sect] }

/-- The task fetch resolves but the story fetch rejects. -/
def storiesFailClient (e : String) : AsanaClientM :=
  { failClient e with getTaskR := fun _ => .ok c8Task }

/-- C3: every Asana-backed query tool converts an API-client rejection —
at every stage of its call sequence — into a result object that carries an
error message, has all numeric fields zero and all array fields empty, and
is returned normally rather than thrown (each embedded tool is a total
function into `JVal`). -/
theorem tools_error_envelope_all :
    (∀ (e : String) (a : Option String) (ts td : String),
      isErrorEnvelope (getTasksCompletedToday (failClient e) a ts td) = true) ∧
    (∀ (e : String) (a : Option String) (ic : Bool) (ts td : String),
      isErrorEnvelope (getTasksUpdatedToday (failClient e) a ic ts td) = true) ∧
    (∀ (e : String) (a : Option String) (xc : Bool) (td : String),
      isErrorEnvelope (getTasksDueToday (failClient e) a xc td) = true) ∧
    (∀ (e : String) (a : Option String) (td : String) (nowMs : Int)
        (parseMs : String → Int),
      isErrorEnvelope (getOverdueTasks (failClient e) a td nowMs parseMs) = true) ∧
    (∀ (e : String) (xc : Bool),
      isErrorEnvelope (getUnassignedTasks (failClient e) xc) = true) ∧
    (∀ (e : String) (xc : Bool) (a : Option String),
      isErrorEnvelope (getTasksWithoutDueDates (failClient e) xc a) = true) ∧
    (∀ (e q : String) (xc : Bool),
      isErrorEnvelope (searchTasksByName (failClient e) q xc) = true) ∧
    (∀ e : String, isErrorEnvelope (getWorkspaceUsersTool (failClient e)) = true) ∧
    (∀ e : String, isErrorEnvelope (getMeTool (failClient e)) = true) ∧
    (∀ e q : String, isErrorEnvelope (searchUsersTool (failClient e) q) = true) ∧
    (∀ (e : String) (a : Option String) (xc : Bool) (ws we : String),
      isErrorEnvelope (getWeeklyPlannedTasks (failClient e) a xc ws we) = true) ∧
    (∀ (e : String) (ic : Bool) (td : String),
      isErrorEnvelope (getTeamWorkload (failClient e) ic td) = true) ∧
    (∀ (e td : String),
      isErrorEnvelope (getOverdueTasksByPerson (failClient e) td) = true) ∧
    (∀ e q : String, isErrorEnvelope (getProjectStatus (failClient e) q) = true) ∧
    (∀ e : String,
      isErrorEnvelope (getProjectStatus (sectionsFailClient e) "Marketing") = true) ∧
    (∀ e : String,
      isErrorEnvelope (getProjectStatus (sectionTasksFailClient e) "Marketing")
        = true) ∧
    (∀ e q : String,
      isErrorEnvelope (getSectionWithMostWork (failClient e) q) = true) ∧
    (∀ e : String,
      isErrorEnvelope (getSectionWithMostWork (sectionsFailClient e) "Marketing")
        = true) ∧
    (∀ e : String,
      isErrorEnvelope
        (getSectionWithMostWork (sectionTasksFailClient e) "Marketing") = true) ∧
    (∀ e g : String,
      isErrorEnvelope (getTaskDueDateChanges (failClient e) g) = true) ∧
    (∀ e g : String,
      isErrorEnvelope (getTaskDueDateChanges (storiesFailClient e) g) = true) ∧
    (∀ (e : String) (limit : Nat),
      isErrorEnvelope (getMostPostponedTasks (failClient e) limit) = true) ∧
    (∀ (e : String) (days : Nat) (cutoff : String) (parseMs : String → Int),
      isErrorEnvelope (getRecentDueDateChanges (failClient e) days cutoff parseMs)
        = true) ∧
    (∀ e : String, isErrorEnvelope (listAllProjects (failClient e)) = true) := by
  refine ⟨?_, ?_, ?_, ?_, ?_, ?_, ?_, ?_, ?_, ?_, ?_, ?_, ?_, ?_, ?_, ?_, ?_,
    ?_, ?_, ?_, ?_, ?_, ?_, ?_⟩ <;> intros <;> rfl
